import Mathlib

/-!
Verification of the node-acp core against its specification.

The development shallowly embeds the repository's source files:
  * `src/src/message.js` — the ACP message codec (`Message`, `generateACPHeaderKey`);
  * `src/src/lib/session.ts` — the session transport (`receiveSize`, `handleData`,
    `handleMonitorData`, `enableEncryption`) and the client authentication stage five;
  * the property catalogue, `generateACPProperties`, the `Property` class and the
    client `getProperties` reply loop.

Buffers and binary strings are embedded as `List Nat` (byte values, each < 256 on
real wire data), JavaScript 32-bit reads/writes as explicit big-endian
serialisation with two's complement for signed fields, and fallible code as
`Except String`.
-/

deriving instance DecidableEq for Except

namespace NodeACP

/-- Big-endian serialisation of an unsigned 32-bit value
(JavaScript `Buffer.writeUInt32BE`); callers guarantee `n < 2^32`. -/
def be32u (n : Nat) : List Nat :=
  [n / 16777216 % 256, n / 65536 % 256, n / 256 % 256, n % 256]

/-- Big-endian two's-complement serialisation of a signed 32-bit value
(JavaScript `Buffer.writeInt32BE`); callers guarantee the int32 range. -/
def be32i (n : Int) : List Nat :=
  be32u (n % 4294967296).toNat

/-- JavaScript `Buffer.readUInt32BE(off)`. -/
def readU32 (b : List Nat) (off : Nat) : Nat :=
  let t := b.drop off
  t.getD 0 0 * 16777216 + t.getD 1 0 * 65536 + t.getD 2 0 * 256 + t.getD 3 0

/-- JavaScript `Buffer.readInt32BE(off)`: the unsigned value reinterpreted
in two's complement. -/
def readI32 (b : List Nat) (off : Nat) : Int :=
  let u := readU32 b off
  if u < 2147483648 then (u : Int) else (u : Int) - 4294967296

/-- One `buffer.write(bytes, off, len)` step of Node's `Buffer`: the target was
pre-allocated (zero-filled) and the written bytes are clamped to the target's
capacity. -/
def writeBytes (buf : List Nat) (off : Nat) (bytes : List Nat) : List Nat :=
  let written := bytes.take (buf.length - off)
  buf.take off ++ written ++ buf.drop (off + written.length)

/-- Accumulator loop of RFC 1950 Adler-32, as used by the npm `adler32`
package (`adler32.sum`). -/
def adler32Go : List Nat → Nat → Nat → Nat × Nat
  | [], a, b => (a, b)
  | x :: xs, a, b =>
    let a' := (a + x) % 65521
    adler32Go xs a' ((b + a') % 65521)

/-- RFC 1950 Adler-32 checksum (`adler32.sum(buffer)`). -/
def adler32 (data : List Nat) : Nat :=
  let r := adler32Go data 1 0
  r.2 * 65536 + r.1

theorem adler32Go_lt (data : List Nat) (a b : Nat) (ha : a < 65521) (hb : b < 65521) :
    (adler32Go data a b).1 < 65521 ∧ (adler32Go data a b).2 < 65521 := by
  induction data generalizing a b with
  | nil => exact ⟨ha, hb⟩
  | cons x xs ih => exact ih _ _ (Nat.mod_lt _ (by omega)) (Nat.mod_lt _ (by omega))

theorem adler32_lt (data : List Nat) : adler32 data < 4294967296 := by
  have h := adler32Go_lt data 1 0 (by omega) (by omega)
  show (adler32Go data 1 0).2 * 65536 + (adler32Go data 1 0).1 < 4294967296
  omega

theorem length_be32u (n : Nat) : (be32u n).length = 4 := rfl

theorem length_be32i (n : Int) : (be32i n).length = 4 := rfl

/-! ### Generic lemmas about the byte helpers -/

theorem readU32_cons4 (a b c d : Nat) (rest : List Nat) :
    readU32 (a :: b :: c :: d :: rest) 0 = a * 16777216 + b * 65536 + c * 256 + d := by
  simp [readU32]

theorem readU32_append (pre l : List Nat) (off : Nat) (h : off = pre.length) :
    readU32 (pre ++ l) off = readU32 l 0 := by
  subst h
  simp [readU32, List.drop_left]

theorem readU32_be32u (n : Nat) (rest : List Nat) (h : n < 4294967296) :
    readU32 (be32u n ++ rest) 0 = n := by
  simp only [be32u, List.cons_append, List.nil_append, readU32_cons4]
  omega

theorem readI32_append (pre l : List Nat) (off : Nat) (h : off = pre.length) :
    readI32 (pre ++ l) off = readI32 l 0 := by
  simp [readI32, readU32_append pre l off h]

theorem readI32_be32i (n : Int) (rest : List Nat)
    (hlo : -2147483648 ≤ n) (hhi : n < 2147483648) :
    readI32 (be32i n ++ rest) 0 = n := by
  have hmod : (0:Int) ≤ n % 4294967296 ∧ n % 4294967296 < 4294967296 := by
    constructor
    · exact Int.emod_nonneg n (by norm_num)
    · exact Int.emod_lt_of_pos n (by norm_num)
  have htn : ((n % 4294967296).toNat : Int) = n % 4294967296 := Int.toNat_of_nonneg hmod.1
  have hu : readU32 (be32i n ++ rest) 0 = (n % 4294967296).toNat := by
    apply readU32_be32u
    omega
  simp only [readI32, hu]
  split <;> omega

theorem be32u_digits (a b c d : Nat) (ha : a < 256) (hb : b < 256) (hc : c < 256)
    (hd : d < 256) : be32u (a * 16777216 + b * 65536 + c * 256 + d) = [a, b, c, d] := by
  simp only [be32u, List.cons.injEq, and_true]
  refine ⟨by omega, by omega, by omega, by omega⟩

theorem be32i_readI32 (b : List Nat) (off : Nat) (h : readU32 b off < 4294967296) :
    be32i (readI32 b off) = be32u (readU32 b off) := by
  simp only [readI32, be32i]
  split
  · congr 1
    omega
  · congr 1
    omega

theorem writeBytes_step (A : List Nat) (z : Nat) (bytes : List Nat) (off k : Nat)
    (hA : A.length = off) (hb : bytes.length = k) (hz : k ≤ z) :
    writeBytes (A ++ List.replicate z 0) off bytes =
      (A ++ bytes) ++ List.replicate (z - k) 0 := by
  subst hA hb
  have h1 : (A ++ List.replicate z 0).take A.length = A := List.take_left ..
  have hlen : (A ++ List.replicate z 0).length = A.length + z := by simp
  have h2 : bytes.take ((A ++ List.replicate z 0).length - A.length) = bytes := by
    rw [hlen]
    exact List.take_of_length_le (by omega)
  have h3 : (A ++ List.replicate z 0).drop (A.length + bytes.length) =
      List.replicate (z - bytes.length) 0 := by
    have : List.replicate z (0:Nat) =
        List.replicate bytes.length 0 ++ List.replicate (z - bytes.length) 0 := by
      rw [← List.replicate_add]
      congr 1
      omega
    rw [this, ← List.append_assoc]
    have h4 : (A ++ List.replicate bytes.length (0:Nat)).length = A.length + bytes.length := by
      simp
    rw [← h4, List.drop_left]
  simp only [writeBytes, h1, h2, h3, List.append_assoc]

/-! ### The ACP message codec (`src/src/message.js`) -/

/-- The four bytes of `HEADER_MAGIC = 'acpp'`. -/
def HEADER_MAGIC : List Nat := [97, 99, 112, 112]

/-- `HEADER_SIZE = 128`. -/
def HEADER_SIZE : Nat := 128

/-- An ACP `Message` (fields of the JavaScript `Message` class; `key` and
`body` are binary strings, embedded as byte lists). -/
structure Message where
  version : Int
  flags : Int
  unused : Int
  command : Int
  error_code : Int
  key : List Nat
  body : Option (List Nat)
  body_size : Int
  body_checksum : Nat
deriving DecidableEq

/-- The `Message` constructor: with no body, `body_size` defaults to `-1` and
`body_checksum` to `1`; with a body, `body_size` defaults to the body length
and `body_checksum` is the Adler-32 of the body. -/
def Message.create (version flags unused command error_code : Int) (key : List Nat)
    (body : Option (List Nat)) (body_size? : Option Int) : Message :=
  match body with
  | none =>
    { version, flags, unused, command, error_code, key, body := none,
      body_size := body_size?.getD (-1), body_checksum := 1 }
  | some b =>
    { version, flags, unused, command, error_code, key, body := some b,
      body_size := body_size?.getD (b.length : Int), body_checksum := adler32 b }

/-- The field record produced by `Message.unpackHeader`. -/
structure RawHeader where
  magic : List Nat
  version : Int
  header_checksum : Nat
  body_checksum : Nat
  body_size : Int
  flags : Int
  unused : Int
  command : Int
  error_code : Int
  pad1 : List Nat
  key : List Nat
  pad2 : List Nat

/-- `Message.unpackHeader`: field reads at the fixed 128-byte layout
(callers always pass exactly 128 bytes). -/
def Message.unpackHeader (b : List Nat) : RawHeader :=
  { magic := b.take 4
    version := readI32 b 4
    header_checksum := readU32 b 8
    body_checksum := readU32 b 12
    body_size := readI32 b 16
    flags := readI32 b 20
    unused := readI32 b 24
    command := readI32 b 28
    error_code := readI32 b 32
    pad1 := (b.drop 36).take 12
    key := (b.drop 48).take 32
    pad2 := (b.drop 80).take 48 }

/-- `Message.packHeader`: sequential `buffer.write`/`write*32BE` calls into a
zero-filled 128-byte buffer.  An empty `pad1`/`pad2` (the JavaScript default
`''`) is replaced by NUL padding; the write lengths (4, 48, 80 and 48 bytes,
clamped to the buffer) follow the source. -/
def Message.packHeader (magic : List Nat) (version : Int) (header_checksum : Nat)
    (body_checksum : Nat) (body_size flags unused command error_code : Int)
    (key pad1 pad2 : List Nat) : List Nat :=
  let pad1' := if pad1.isEmpty then List.replicate 12 0 else pad1
  let pad2' := if pad2.isEmpty then List.replicate 48 0 else pad2
  let b0 := List.replicate 128 0
  let b1 := writeBytes b0 0 (magic.take 4)
  let b2 := writeBytes b1 4 (be32i version)
  let b3 := writeBytes b2 8 (be32u header_checksum)
  let b4 := writeBytes b3 12 (be32u body_checksum)
  let b5 := writeBytes b4 16 (be32i body_size)
  let b6 := writeBytes b5 20 (be32i flags)
  let b7 := writeBytes b6 24 (be32i unused)
  let b8 := writeBytes b7 28 (be32i command)
  let b9 := writeBytes b8 32 (be32i error_code)
  let b10 := writeBytes b9 36 (pad1'.take 48)
  let b11 := writeBytes b10 48 (key.take 80)
  writeBytes b11 80 pad2'

/-- The recognised protocol versions of `Message.parseRaw`. -/
def acpVersions : List Int := [0x00000001, 0x00030001]

/-- The recognised commands of `Message.parseRaw`. -/
def acpCommands : List Int := [1, 3, 4, 5, 6, 0x14, 0x15, 0x16, 0x17, 0x18, 0x19, 0x1a, 0x1b]

/-- `Message.parseRaw(data)` (the one-argument form used throughout the
repository, i.e. `return_remaining` falsy). -/
def Message.parseRaw (data : List Nat) : Except String Message :=
  if data.length < HEADER_SIZE then
    .error "Need to pass at least 128 bytes"
  else
    let header_data := data.take HEADER_SIZE
    let body_data : Option (List Nat) :=
      if HEADER_SIZE < data.length then some (data.drop HEADER_SIZE) else none
    let u := Message.unpackHeader header_data
    if u.magic ≠ HEADER_MAGIC then
      .error "Bad header magic"
    else if u.version ∉ acpVersions then
      .error "Unknown version"
    else
      let tmphdr := Message.packHeader HEADER_MAGIC u.version 0 u.body_checksum
        u.body_size u.flags u.unused u.command u.error_code u.key u.pad1 u.pad2
      if u.header_checksum ≠ adler32 tmphdr then
        .error "Header checksum does not match"
      else if body_data.isSome ∧ u.body_size = -1 then
        .error "Cannot handle stream header with data attached"
      else if body_data.isSome ∧ u.body_size ≠ ((body_data.getD []).length : Int) then
        .error "Message body size does not match available data"
      else if body_data.isSome ∧ u.body_checksum ≠ adler32 (body_data.getD []) then
        .error "Body checksum does not match"
      else if u.command ∉ acpCommands then
        .error "Unknown command"
      else
        .ok (Message.create u.version u.flags u.unused u.command u.error_code
          u.key body_data (some u.body_size))

/-- `Message#composeHeader`: pack with `header_checksum = 0`, Adler-32 the
result, pack again with the checksum filled in. -/
def Message.composeHeader (m : Message) : List Nat :=
  let tmphdr := Message.packHeader HEADER_MAGIC m.version 0 m.body_checksum
    m.body_size m.flags m.unused m.command m.error_code m.key [] []
  Message.packHeader HEADER_MAGIC m.version (adler32 tmphdr) m.body_checksum
    m.body_size m.flags m.unused m.command m.error_code m.key [] []

/-- `Message#composeRawPacket`: the header followed by the body when the body
is truthy (an absent or empty body contributes nothing). -/
def Message.composeRawPacket (m : Message) : List Nat :=
  m.composeHeader ++ (match m.body with | some b => b | none => [])

/-! ### Normal forms for packing and unpacking the 128-byte header -/

theorem take_concat (l₁ l₂ : List Nat) (n : Nat) (h : l₁.length = n) :
    (l₁ ++ l₂).take n = l₁ := by
  subst h
  exact List.take_left ..

theorem drop_concat (l₁ l₂ : List Nat) (n : Nat) (h : l₁.length = n) :
    (l₁ ++ l₂).drop n = l₂ := by
  subst h
  exact List.drop_left ..

theorem length_HEADER_MAGIC : HEADER_MAGIC.length = 4 := rfl

theorem drop_shift (x rest : List Nat) (n i : Nat) (h : n = x.length + i) :
    (x ++ rest).drop n = rest.drop i := by
  subst h
  exact List.drop_append i

theorem readU32_shift (x rest : List Nat) (off i : Nat) (h : off = x.length + i) :
    readU32 (x ++ rest) off = readU32 rest i := by
  simp only [readU32, drop_shift x rest off i h]

theorem readI32_shift (x rest : List Nat) (off i : Nat) (h : off = x.length + i) :
    readI32 (x ++ rest) off = readI32 rest i := by
  simp only [readI32, readU32_shift x rest off i h]

theorem packHeader_eq (v bs fl un c e : Int) (hc bc : Nat) (key pad1 pad2 : List Nat)
    (hkey : key.length = 32)
    (hp1 : pad1 = [] ∨ pad1.length = 12) (hp2 : pad2 = [] ∨ pad2.length = 48) :
    Message.packHeader HEADER_MAGIC v hc bc bs fl un c e key pad1 pad2 =
      HEADER_MAGIC ++ be32i v ++ be32u hc ++ be32u bc ++ be32i bs ++ be32i fl ++
      be32i un ++ be32i c ++ be32i e ++
      (if pad1.isEmpty then List.replicate 12 0 else pad1) ++ key ++
      (if pad2.isEmpty then List.replicate 48 0 else pad2) := by
  simp only [Message.packHeader]
  set P1 := (if pad1.isEmpty then List.replicate 12 (0:Nat) else pad1) with hP1def
  set P2 := (if pad2.isEmpty then List.replicate 48 (0:Nat) else pad2) with hP2def
  have hP1 : P1.length = 12 := by
    rw [hP1def]
    rcases hp1 with h | h
    · subst h; simp
    · have hne : pad1.isEmpty = false := by cases pad1 <;> simp_all
      simp [hne, h]
  have hP2 : P2.length = 48 := by
    rw [hP2def]
    rcases hp2 with h | h
    · subst h; simp
    · have hne : pad2.isEmpty = false := by cases pad2 <;> simp_all
      simp [hne, h]
  rw [show HEADER_MAGIC.take 4 = HEADER_MAGIC from rfl]
  rw [show P1.take 48 = P1 from List.take_of_length_le (by omega)]
  rw [show key.take 80 = key from List.take_of_length_le (by omega)]
  have s1 : writeBytes (List.replicate 128 0) 0 HEADER_MAGIC =
      HEADER_MAGIC ++ List.replicate 124 0 := by
    have h := writeBytes_step [] 128 HEADER_MAGIC 0 4 rfl rfl (by omega)
    simpa using h
  rw [s1]
  rw [writeBytes_step HEADER_MAGIC 124 (be32i v) 4 4 length_HEADER_MAGIC
    (length_be32i v) (by omega)]
  rw [writeBytes_step _ 120 (be32u hc) 8 4
    (by simp only [List.length_append, length_HEADER_MAGIC, length_be32i, length_be32u])
    (length_be32u hc) (by omega)]
  rw [writeBytes_step _ 116 (be32u bc) 12 4
    (by simp only [List.length_append, length_HEADER_MAGIC, length_be32i, length_be32u])
    (length_be32u bc) (by omega)]
  rw [writeBytes_step _ 112 (be32i bs) 16 4
    (by simp only [List.length_append, length_HEADER_MAGIC, length_be32i, length_be32u])
    (length_be32i bs) (by omega)]
  rw [writeBytes_step _ 108 (be32i fl) 20 4
    (by simp only [List.length_append, length_HEADER_MAGIC, length_be32i, length_be32u])
    (length_be32i fl) (by omega)]
  rw [writeBytes_step _ 104 (be32i un) 24 4
    (by simp only [List.length_append, length_HEADER_MAGIC, length_be32i, length_be32u])
    (length_be32i un) (by omega)]
  rw [writeBytes_step _ 100 (be32i c) 28 4
    (by simp only [List.length_append, length_HEADER_MAGIC, length_be32i, length_be32u])
    (length_be32i c) (by omega)]
  rw [writeBytes_step _ 96 (be32i e) 32 4
    (by simp only [List.length_append, length_HEADER_MAGIC, length_be32i, length_be32u])
    (length_be32i e) (by omega)]
  rw [writeBytes_step _ 92 P1 36 12
    (by simp only [List.length_append, length_HEADER_MAGIC, length_be32i, length_be32u])
    hP1 (by omega)]
  rw [writeBytes_step _ 80 key 48 32
    (by simp only [List.length_append, length_HEADER_MAGIC, length_be32i, length_be32u]; omega)
    hkey (by omega)]
  rw [writeBytes_step _ 48 P2 80 48
    (by simp only [List.length_append, length_HEADER_MAGIC, length_be32i, length_be32u]; omega)
    hP2 (by omega)]
  simp [List.append_assoc]

/-- Unpacking a header in packed normal form recovers every field. -/
theorem unpackHeader_concat (v bs fl un c e : Int) (hc bc : Nat) (P1 K P2 : List Nat)
    (hP1 : P1.length = 12) (hK : K.length = 32) (hP2 : P2.length = 48)
    (hv₁ : -2147483648 ≤ v) (hv₂ : v < 2147483648)
    (hbs₁ : -2147483648 ≤ bs) (hbs₂ : bs < 2147483648)
    (hfl₁ : -2147483648 ≤ fl) (hfl₂ : fl < 2147483648)
    (hun₁ : -2147483648 ≤ un) (hun₂ : un < 2147483648)
    (hc₁ : -2147483648 ≤ c) (hc₂ : c < 2147483648)
    (he₁ : -2147483648 ≤ e) (he₂ : e < 2147483648)
    (hhc : hc < 4294967296) (hbc : bc < 4294967296) :
    Message.unpackHeader (HEADER_MAGIC ++ be32i v ++ be32u hc ++ be32u bc ++ be32i bs ++
      be32i fl ++ be32i un ++ be32i c ++ be32i e ++ P1 ++ K ++ P2) =
      ⟨HEADER_MAGIC, v, hc, bc, bs, fl, un, c, e, P1, K, P2⟩ := by
  unfold Message.unpackHeader
  simp only [RawHeader.mk.injEq, List.append_assoc]
  refine ⟨?_, ?_, ?_, ?_, ?_, ?_, ?_, ?_, ?_, ?_, ?_, ?_⟩
  · exact take_concat _ _ 4 length_HEADER_MAGIC
  · rw [readI32_shift HEADER_MAGIC _ 4 0 (by simp [HEADER_MAGIC])]
    exact readI32_be32i v _ hv₁ hv₂
  · rw [readU32_shift HEADER_MAGIC _ 8 4 (by simp [HEADER_MAGIC]),
      readU32_shift (be32i v) _ 4 0 (by simp [length_be32i])]
    exact readU32_be32u hc _ hhc
  · rw [readU32_shift HEADER_MAGIC _ 12 8 (by simp [HEADER_MAGIC]),
      readU32_shift (be32i v) _ 8 4 (by simp [length_be32i]),
      readU32_shift (be32u hc) _ 4 0 (by simp [length_be32u])]
    exact readU32_be32u bc _ hbc
  · rw [readI32_shift HEADER_MAGIC _ 16 12 (by simp [HEADER_MAGIC]),
      readI32_shift (be32i v) _ 12 8 (by simp [length_be32i]),
      readI32_shift (be32u hc) _ 8 4 (by simp [length_be32u]),
      readI32_shift (be32u bc) _ 4 0 (by simp [length_be32u])]
    exact readI32_be32i bs _ hbs₁ hbs₂
  · rw [readI32_shift HEADER_MAGIC _ 20 16 (by simp [HEADER_MAGIC]),
      readI32_shift (be32i v) _ 16 12 (by simp [length_be32i]),
      readI32_shift (be32u hc) _ 12 8 (by simp [length_be32u]),
      readI32_shift (be32u bc) _ 8 4 (by simp [length_be32u]),
      readI32_shift (be32i bs) _ 4 0 (by simp [length_be32i])]
    exact readI32_be32i fl _ hfl₁ hfl₂
  · rw [readI32_shift HEADER_MAGIC _ 24 20 (by simp [HEADER_MAGIC]),
      readI32_shift (be32i v) _ 20 16 (by simp [length_be32i]),
      readI32_shift (be32u hc) _ 16 12 (by simp [length_be32u]),
      readI32_shift (be32u bc) _ 12 8 (by simp [length_be32u]),
      readI32_shift (be32i bs) _ 8 4 (by simp [length_be32i]),
      readI32_shift (be32i fl) _ 4 0 (by simp [length_be32i])]
    exact readI32_be32i un _ hun₁ hun₂
  · rw [readI32_shift HEADER_MAGIC _ 28 24 (by simp [HEADER_MAGIC]),
      readI32_shift (be32i v) _ 24 20 (by simp [length_be32i]),
      readI32_shift (be32u hc) _ 20 16 (by simp [length_be32u]),
      readI32_shift (be32u bc) _ 16 12 (by simp [length_be32u]),
      readI32_shift (be32i bs) _ 12 8 (by simp [length_be32i]),
      readI32_shift (be32i fl) _ 8 4 (by simp [length_be32i]),
      readI32_shift (be32i un) _ 4 0 (by simp [length_be32i])]
    exact readI32_be32i c _ hc₁ hc₂
  · rw [readI32_shift HEADER_MAGIC _ 32 28 (by simp [HEADER_MAGIC]),
      readI32_shift (be32i v) _ 28 24 (by simp [length_be32i]),
      readI32_shift (be32u hc) _ 24 20 (by simp [length_be32u]),
      readI32_shift (be32u bc) _ 20 16 (by simp [length_be32u]),
      readI32_shift (be32i bs) _ 16 12 (by simp [length_be32i]),
      readI32_shift (be32i fl) _ 12 8 (by simp [length_be32i]),
      readI32_shift (be32i un) _ 8 4 (by simp [length_be32i]),
      readI32_shift (be32i c) _ 4 0 (by simp [length_be32i])]
    exact readI32_be32i e _ he₁ he₂
  · rw [drop_shift HEADER_MAGIC _ 36 32 (by simp [HEADER_MAGIC]),
      drop_shift (be32i v) _ 32 28 (by simp [length_be32i]),
      drop_shift (be32u hc) _ 28 24 (by simp [length_be32u]),
      drop_shift (be32u bc) _ 24 20 (by simp [length_be32u]),
      drop_shift (be32i bs) _ 20 16 (by simp [length_be32i]),
      drop_shift (be32i fl) _ 16 12 (by simp [length_be32i]),
      drop_shift (be32i un) _ 12 8 (by simp [length_be32i]),
      drop_shift (be32i c) _ 8 4 (by simp [length_be32i]),
      drop_shift (be32i e) _ 4 0 (by simp [length_be32i]),
      List.drop_zero]
    exact take_concat P1 _ 12 hP1
  · rw [drop_shift HEADER_MAGIC _ 48 44 (by simp [HEADER_MAGIC]),
      drop_shift (be32i v) _ 44 40 (by simp [length_be32i]),
      drop_shift (be32u hc) _ 40 36 (by simp [length_be32u]),
      drop_shift (be32u bc) _ 36 32 (by simp [length_be32u]),
      drop_shift (be32i bs) _ 32 28 (by simp [length_be32i]),
      drop_shift (be32i fl) _ 28 24 (by simp [length_be32i]),
      drop_shift (be32i un) _ 24 20 (by simp [length_be32i]),
      drop_shift (be32i c) _ 20 16 (by simp [length_be32i]),
      drop_shift (be32i e) _ 16 12 (by simp [length_be32i]),
      drop_shift P1 _ 12 0 (by omega),
      List.drop_zero]
    exact take_concat K _ 32 hK
  · rw [drop_shift HEADER_MAGIC _ 80 76 (by simp [HEADER_MAGIC]),
      drop_shift (be32i v) _ 76 72 (by simp [length_be32i]),
      drop_shift (be32u hc) _ 72 68 (by simp [length_be32u]),
      drop_shift (be32u bc) _ 68 64 (by simp [length_be32u]),
      drop_shift (be32i bs) _ 64 60 (by simp [length_be32i]),
      drop_shift (be32i fl) _ 60 56 (by simp [length_be32i]),
      drop_shift (be32i un) _ 56 52 (by simp [length_be32i]),
      drop_shift (be32i c) _ 52 48 (by simp [length_be32i]),
      drop_shift (be32i e) _ 48 44 (by simp [length_be32i]),
      drop_shift P1 _ 44 32 (by omega),
      drop_shift K _ 32 0 (by omega),
      List.drop_zero]
    exact List.take_of_length_le (by omega)

theorem packHeader_nil_pads (v bs fl un c e : Int) (hc bc : Nat) (key : List Nat)
    (hkey : key.length = 32) :
    Message.packHeader HEADER_MAGIC v hc bc bs fl un c e key [] [] =
      HEADER_MAGIC ++ be32i v ++ be32u hc ++ be32u bc ++ be32i bs ++ be32i fl ++
      be32i un ++ be32i c ++ be32i e ++ List.replicate 12 0 ++ key ++
      List.replicate 48 0 := by
  rw [packHeader_eq v bs fl un c e hc bc key [] [] hkey (Or.inl rfl) (Or.inl rfl)]
  simp

theorem packHeader_rep_pads (v bs fl un c e : Int) (hc bc : Nat) (key : List Nat)
    (hkey : key.length = 32) :
    Message.packHeader HEADER_MAGIC v hc bc bs fl un c e key (List.replicate 12 0)
      (List.replicate 48 0) =
      HEADER_MAGIC ++ be32i v ++ be32u hc ++ be32u bc ++ be32i bs ++ be32i fl ++
      be32i un ++ be32i c ++ be32i e ++ List.replicate 12 0 ++ key ++
      List.replicate 48 0 := by
  rw [packHeader_eq v bs fl un c e hc bc key _ _ hkey (Or.inr (by simp))
    (Or.inr (by simp))]
  simp

theorem headerNF_length (v bs fl un c e : Int) (hc bc : Nat) (key : List Nat)
    (hkey : key.length = 32) :
    (HEADER_MAGIC ++ be32i v ++ be32u hc ++ be32u bc ++ be32i bs ++ be32i fl ++
      be32i un ++ be32i c ++ be32i e ++ List.replicate 12 0 ++ key ++
      List.replicate 48 0).length = 128 := by
  simp only [List.length_append, length_HEADER_MAGIC, length_be32i, length_be32u,
    List.length_replicate]
  omega

/-- `composeHeader` produces the packed normal form, with the checksum of the
zero-checksum packing filled in. -/
theorem composeHeader_eq (m : Message) (hkey : m.key.length = 32) :
    m.composeHeader =
      HEADER_MAGIC ++ be32i m.version ++
      be32u (adler32 (HEADER_MAGIC ++ be32i m.version ++ be32u 0 ++
        be32u m.body_checksum ++ be32i m.body_size ++ be32i m.flags ++
        be32i m.unused ++ be32i m.command ++ be32i m.error_code ++
        List.replicate 12 0 ++ m.key ++ List.replicate 48 0)) ++
      be32u m.body_checksum ++ be32i m.body_size ++ be32i m.flags ++
      be32i m.unused ++ be32i m.command ++ be32i m.error_code ++
      List.replicate 12 0 ++ m.key ++ List.replicate 48 0 := by
  unfold Message.composeHeader
  rw [packHeader_nil_pads _ _ _ _ _ _ _ _ _ hkey,
    packHeader_nil_pads _ _ _ _ _ _ _ _ _ hkey]

/-- **C1** (amended): for a well-formed message (32-bit fields in range, 32-byte
key, byte-valued key and body) whose version and command are recognised, whose
attached body is non-empty and whose `body_size`/`body_checksum` are the
constructor-computed values, `parseRaw` of `composeRawPacket` returns the
message itself, and the composed bytes begin with `"acpp"`. -/
theorem parseRaw_composeRawPacket (m : Message) (b : List Nat)
    (hver : m.version = 1 ∨ m.version = 196609)
    (hcmd : m.command ∈ acpCommands)
    (hbody : m.body = some b) (hne : b ≠ [])
    (hbs : m.body_size = (b.length : Int)) (hblen : b.length < 2147483648)
    (hbc : m.body_checksum = adler32 b)
    (hkey : m.key.length = 32) (hkeyB : ∀ x ∈ m.key, x < 256)
    (hbB : ∀ x ∈ b, x < 256)
    (hfl₁ : -2147483648 ≤ m.flags) (hfl₂ : m.flags < 2147483648)
    (hun₁ : -2147483648 ≤ m.unused) (hun₂ : m.unused < 2147483648)
    (hec₁ : -2147483648 ≤ m.error_code) (hec₂ : m.error_code < 2147483648) :
    Message.parseRaw m.composeRawPacket = .ok m ∧
      m.composeRawPacket.take 4 = [97, 99, 112, 112] := by
  have hv₁ : -2147483648 ≤ m.version := by rcases hver with h | h <;> omega
  have hv₂ : m.version < 2147483648 := by rcases hver with h | h <;> omega
  have hcm : -2147483648 ≤ m.command ∧ m.command < 2147483648 := by
    simp only [acpCommands, List.mem_cons, List.not_mem_nil, or_false] at hcmd
    rcases hcmd with h|h|h|h|h|h|h|h|h|h|h|h|h <;> omega
  have hbck : m.body_checksum < 4294967296 := hbc ▸ adler32_lt b
  have hbs₁ : -2147483648 ≤ m.body_size := by rw [hbs]; omega
  have hbs₂ : m.body_size < 2147483648 := by rw [hbs]; omega
  have hcomp : m.composeRawPacket =
      (HEADER_MAGIC ++ be32i m.version ++
        be32u (adler32 (HEADER_MAGIC ++ be32i m.version ++ be32u 0 ++
          be32u m.body_checksum ++ be32i m.body_size ++ be32i m.flags ++
          be32i m.unused ++ be32i m.command ++ be32i m.error_code ++
          List.replicate 12 0 ++ m.key ++ List.replicate 48 0)) ++
        be32u m.body_checksum ++ be32i m.body_size ++ be32i m.flags ++
        be32i m.unused ++ be32i m.command ++ be32i m.error_code ++
        List.replicate 12 0 ++ m.key ++ List.replicate 48 0) ++ b := by
    simp only [Message.composeRawPacket, hbody, composeHeader_eq m hkey]
  set T0 := HEADER_MAGIC ++ be32i m.version ++ be32u 0 ++
    be32u m.body_checksum ++ be32i m.body_size ++ be32i m.flags ++
    be32i m.unused ++ be32i m.command ++ be32i m.error_code ++
    List.replicate 12 0 ++ m.key ++ List.replicate 48 0 with hT0
  set A := HEADER_MAGIC ++ be32i m.version ++ be32u (adler32 T0) ++
    be32u m.body_checksum ++ be32i m.body_size ++ be32i m.flags ++
    be32i m.unused ++ be32i m.command ++ be32i m.error_code ++
    List.replicate 12 0 ++ m.key ++ List.replicate 48 0 with hA
  have hAlen : A.length = 128 := by
    rw [hA]; exact headerNF_length _ _ _ _ _ _ _ _ _ hkey
  have htake : m.composeRawPacket.take 128 = A := by
    rw [hcomp]; exact take_concat _ _ _ hAlen
  have hdrop : m.composeRawPacket.drop 128 = b := by
    rw [hcomp]; exact drop_concat _ _ _ hAlen
  have htake4 : m.composeRawPacket.take 4 = [97, 99, 112, 112] := by
    rw [hcomp, hA]
    simp only [List.append_assoc]
    rw [take_concat HEADER_MAGIC _ 4 length_HEADER_MAGIC]
    rfl
  have hlen : m.composeRawPacket.length = 128 + b.length := by
    rw [hcomp]
    simp [hAlen]
  have hunpack : Message.unpackHeader A =
      ⟨HEADER_MAGIC, m.version, adler32 T0, m.body_checksum, m.body_size, m.flags,
        m.unused, m.command, m.error_code, List.replicate 12 0, m.key,
        List.replicate 48 0⟩ := by
    rw [hA]
    exact unpackHeader_concat m.version m.body_size m.flags m.unused m.command
      m.error_code (adler32 T0) m.body_checksum _ _ _ (by simp) hkey (by simp)
      hv₁ hv₂ hbs₁ hbs₂ hfl₁ hfl₂ hun₁ hun₂ hcm.1 hcm.2 hec₁ hec₂
      (adler32_lt T0) hbck
  have hpack : Message.packHeader HEADER_MAGIC m.version 0 m.body_checksum
      m.body_size m.flags m.unused m.command m.error_code m.key
      (List.replicate 12 0) (List.replicate 48 0) = T0 := by
    rw [hT0]
    exact packHeader_rep_pads _ _ _ _ _ _ _ _ _ hkey
  refine ⟨?_, htake4⟩
  have hnlt : ¬ (m.composeRawPacket.length < HEADER_SIZE) := by
    simp only [hlen, HEADER_SIZE]
    omega
  have hgt : HEADER_SIZE < m.composeRawPacket.length := by
    have : b.length ≠ 0 := fun h => hne (List.eq_nil_of_length_eq_zero h)
    simp only [hlen, HEADER_SIZE]
    omega
  simp only [Message.parseRaw, HEADER_SIZE] at hnlt hgt ⊢
  rw [if_neg hnlt, if_pos hgt, htake, hdrop, hunpack]
  rw [if_neg (show ¬ (RawHeader.magic ⟨HEADER_MAGIC, m.version, adler32 T0,
    m.body_checksum, m.body_size, m.flags, m.unused, m.command, m.error_code,
    List.replicate 12 0, m.key, List.replicate 48 0⟩ ≠ HEADER_MAGIC) by simp)]
  rw [if_neg (show ¬ (RawHeader.version ⟨HEADER_MAGIC, m.version, adler32 T0,
    m.body_checksum, m.body_size, m.flags, m.unused, m.command, m.error_code,
    List.replicate 12 0, m.key, List.replicate 48 0⟩ ∉ acpVersions) by
    rcases hver with h | h <;> simp [acpVersions, h])]
  dsimp only
  rw [hpack]
  rw [if_neg (show ¬ (adler32 T0 ≠ adler32 T0) by simp)]
  rw [if_neg (show ¬ ((some b).isSome ∧ m.body_size = -1) by
    simp only [Option.isSome_some, true_and, hbs]; omega)]
  rw [if_neg (show ¬ ((some b).isSome ∧ m.body_size ≠ (((some b).getD []).length : Int)) by
    simp [hbs])]
  rw [if_neg (show ¬ ((some b).isSome ∧ m.body_checksum ≠ adler32 ((some b).getD [])) by
    simp [hbc])]
  rw [if_neg (not_not_intro hcmd)]
  simp only [Message.create, Option.getD_some, Except.ok.injEq]
  conv_rhs => rw [show m = ⟨m.version, m.flags, m.unused, m.command, m.error_code,
    m.key, m.body, m.body_size, m.body_checksum⟩ from rfl]
  simp [hbody, hbc]

/-! ### Repacking a parsed header reproduces the header with zeroed checksum -/

theorem getD_lt (t : List Nat) (hB : ∀ x ∈ t, x < 256) (i : Nat) : t.getD i 0 < 256 := by
  rcases Nat.lt_or_ge i t.length with hi | hi
  · rw [List.getD_eq_getElem t 0 hi]
    exact hB _ (List.getElem_mem hi)
  · rw [List.getD_eq_default t 0 hi]
    omega

theorem readU32_lt (t : List Nat) (off : Nat) (hB : ∀ x ∈ t, x < 256) :
    readU32 t off < 4294967296 := by
  have h0 := getD_lt (t.drop off) (fun x hx => hB x (List.mem_of_mem_drop hx)) 0
  have h1 := getD_lt (t.drop off) (fun x hx => hB x (List.mem_of_mem_drop hx)) 1
  have h2 := getD_lt (t.drop off) (fun x hx => hB x (List.mem_of_mem_drop hx)) 2
  have h3 := getD_lt (t.drop off) (fun x hx => hB x (List.mem_of_mem_drop hx)) 3
  show (t.drop off).getD 0 0 * 16777216 + (t.drop off).getD 1 0 * 65536 +
    (t.drop off).getD 2 0 * 256 + (t.drop off).getD 3 0 < 4294967296
  omega

theorem readU32_drop (b : List Nat) (off : Nat) : readU32 b off = readU32 (b.drop off) 0 := by
  simp [readU32]

/-- Serialising a parsed big-endian word reproduces the four source bytes. -/
theorem be32u_readU32_take (t : List Nat) (h4 : 4 ≤ t.length) (hB : ∀ x ∈ t, x < 256) :
    be32u (readU32 t 0) = t.take 4 := by
  match t with
  | a :: b :: c :: d :: rest =>
    rw [readU32_cons4]
    rw [be32u_digits a b c d (hB a (by simp)) (hB b (by simp)) (hB c (by simp))
      (hB d (by simp))]
    rfl

theorem seg_u (h : List Nat) (t : Nat) (hlen : t + 4 ≤ h.length) (hB : ∀ x ∈ h, x < 256) :
    be32u (readU32 h t) = (h.drop t).take 4 := by
  rw [readU32_drop]
  exact be32u_readU32_take (h.drop t) (by simp; omega)
    (fun x hx => hB x (List.mem_of_mem_drop hx))

theorem seg_i (h : List Nat) (t : Nat) (hlen : t + 4 ≤ h.length) (hB : ∀ x ∈ h, x < 256) :
    be32i (readI32 h t) = (h.drop t).take 4 := by
  rw [be32i_readI32 h t (readU32_lt h t hB)]
  exact seg_u h t hlen hB

theorem drop_take_chain (l : List Nat) (t n : Nat) :
    l.drop t = (l.drop t).take n ++ l.drop (t + n) := by
  conv_lhs => rw [← List.take_append_drop n (l.drop t)]
  rw [List.drop_drop]

theorem packHeader_eq' (v bs fl un c e : Int) (hc bc : Nat) (key pad1 pad2 : List Nat)
    (hkey : key.length = 32) (hp1 : pad1.length = 12) (hp2 : pad2.length = 48) :
    Message.packHeader HEADER_MAGIC v hc bc bs fl un c e key pad1 pad2 =
      HEADER_MAGIC ++ be32i v ++ be32u hc ++ be32u bc ++ be32i bs ++ be32i fl ++
      be32i un ++ be32i c ++ be32i e ++ pad1 ++ key ++ pad2 := by
  rw [packHeader_eq v bs fl un c e hc bc key pad1 pad2 hkey (Or.inr hp1) (Or.inr hp2)]
  have h1 : pad1.isEmpty = false := by cases pad1 <;> simp_all
  have h2 : pad2.isEmpty = false := by cases pad2 <;> simp_all
  simp [h1, h2]

/-- Re-packing the fields parsed by `unpackHeader` (with checksum zero)
reproduces the original 128-byte header with its checksum field zeroed. -/
theorem pack_unpack (h : List Nat) (hlen : h.length = 128) (hB : ∀ x ∈ h, x < 256)
    (hmagic : h.take 4 = HEADER_MAGIC) :
    Message.packHeader HEADER_MAGIC (Message.unpackHeader h).version 0
      (Message.unpackHeader h).body_checksum (Message.unpackHeader h).body_size
      (Message.unpackHeader h).flags (Message.unpackHeader h).unused
      (Message.unpackHeader h).command (Message.unpackHeader h).error_code
      (Message.unpackHeader h).key (Message.unpackHeader h).pad1
      (Message.unpackHeader h).pad2 =
      h.take 8 ++ [0, 0, 0, 0] ++ h.drop 12 := by
  have hp1len : ((h.drop 36).take 12).length = 12 := by simp [hlen]
  have hklen : ((h.drop 48).take 32).length = 32 := by simp [hlen]
  have hp2len : ((h.drop 80).take 48).length = 48 := by simp [hlen]
  show Message.packHeader HEADER_MAGIC (readI32 h 4) 0 (readU32 h 12) (readI32 h 16)
    (readI32 h 20) (readI32 h 24) (readI32 h 28) (readI32 h 32)
    ((h.drop 48).take 32) ((h.drop 36).take 12) ((h.drop 80).take 48) = _
  rw [packHeader_eq' (readI32 h 4) (readI32 h 16) (readI32 h 20) (readI32 h 24)
    (readI32 h 28) (readI32 h 32) 0 (readU32 h 12) _ _ _ hklen hp1len hp2len]
  rw [seg_i h 4 (by omega) hB, seg_u h 12 (by omega) hB, seg_i h 16 (by omega) hB,
    seg_i h 20 (by omega) hB, seg_i h 24 (by omega) hB, seg_i h 28 (by omega) hB,
    seg_i h 32 (by omega) hB, ← hmagic,
    show be32u 0 = [0, 0, 0, 0] from rfl]
  have hdecomp : h.drop 12 =
      (h.drop 12).take 4 ++ ((h.drop 16).take 4 ++ ((h.drop 20).take 4 ++
      ((h.drop 24).take 4 ++ ((h.drop 28).take 4 ++ ((h.drop 32).take 4 ++
      ((h.drop 36).take 12 ++ ((h.drop 48).take 32 ++ (h.drop 80).take 48))))))) := by
    conv_lhs => rw [drop_take_chain h 12 4]
    conv_lhs => rw [drop_take_chain h 16 4]
    conv_lhs => rw [drop_take_chain h 20 4]
    conv_lhs => rw [drop_take_chain h 24 4]
    conv_lhs => rw [drop_take_chain h 28 4]
    conv_lhs => rw [drop_take_chain h 32 4]
    conv_lhs => rw [drop_take_chain h 36 12]
    conv_lhs => rw [drop_take_chain h 48 32]
    conv_lhs => rw [drop_take_chain h 80 48]
    rw [show h.drop (80 + 48) = [] from List.drop_eq_nil_of_le (by omega),
      List.append_nil]
  have htk8 : h.take 8 = h.take 4 ++ (h.drop 4).take 4 := by
    rw [show (8:Nat) = 4 + 4 from rfl, List.take_add]
  conv_rhs => rw [htk8, hdecomp]
  simp only [List.append_assoc]

/-- **C2**: `Message.parseRaw(data)` fails exactly when: the data is shorter
than 128 bytes; the magic is not `"acpp"`; the version is unrecognised; the
header checksum differs from the Adler-32 of the 128-byte header with its
checksum field zeroed; the command is unrecognised; a supplied body's length
differs from `body_size`; the body's Adler-32 differs from `body_checksum`;
or `body_size` is `-1` while a body is attached (a body is supplied exactly
when more than 128 bytes are passed). -/
theorem parseRaw_error_iff (data : List Nat) (hB : ∀ x ∈ data, x < 256) :
    (∃ e, Message.parseRaw data = .error e) ↔
      (data.length < 128 ∨
       (Message.unpackHeader (data.take 128)).magic ≠ HEADER_MAGIC ∨
       (Message.unpackHeader (data.take 128)).version ∉ acpVersions ∨
       (Message.unpackHeader (data.take 128)).header_checksum ≠
         adler32 ((data.take 128).take 8 ++ [0, 0, 0, 0] ++ (data.take 128).drop 12) ∨
       (Message.unpackHeader (data.take 128)).command ∉ acpCommands ∨
       (128 < data.length ∧
         (Message.unpackHeader (data.take 128)).body_size ≠ ((data.drop 128).length : Int)) ∨
       (128 < data.length ∧
         (Message.unpackHeader (data.take 128)).body_checksum ≠ adler32 (data.drop 128)) ∨
       (128 < data.length ∧ (Message.unpackHeader (data.take 128)).body_size = -1)) := by
  by_cases h1 : data.length < 128
  · simp [Message.parseRaw, HEADER_SIZE, h1]
  · have hhdr128 : (data.take 128).length = 128 := by simp; omega
    have hzB : ∀ x ∈ data.take 128, x < 256 := fun x hx => hB x (List.mem_of_mem_take hx)
    simp only [Message.parseRaw, HEADER_SIZE, if_neg h1]
    by_cases h2 : (Message.unpackHeader (data.take 128)).magic ≠ HEADER_MAGIC
    · rw [if_pos h2]
      simp [h2]
    · rw [if_neg h2]
      push_neg at h2
      have hz := pack_unpack (data.take 128) hhdr128 hzB h2
      rw [hz]
      by_cases h3 : (Message.unpackHeader (data.take 128)).version ∉ acpVersions
      · rw [if_pos h3]
        simp [h3]
      · rw [if_neg h3]
        by_cases h4 : (Message.unpackHeader (data.take 128)).header_checksum ≠
            adler32 ((data.take 128).take 8 ++ [0, 0, 0, 0] ++ (data.take 128).drop 12)
        · rw [if_pos h4]
          exact iff_of_true ⟨_, rfl⟩ (Or.inr (Or.inr (Or.inr (Or.inl h4))))
        · rw [if_neg h4]
          by_cases h5 : 128 < data.length
          · rw [if_pos h5]
            simp only [Option.isSome_some, Option.getD_some]
            by_cases h6 : (Message.unpackHeader (data.take 128)).body_size = -1
            · rw [if_pos ⟨trivial, h6⟩]
              exact iff_of_true ⟨_, rfl⟩
                (Or.inr (Or.inr (Or.inr (Or.inr (Or.inr (Or.inr (Or.inr ⟨h5, h6⟩)))))))
            · rw [if_neg (fun hh => h6 hh.2)]
              by_cases h7 : (Message.unpackHeader (data.take 128)).body_size ≠
                  ((data.drop 128).length : Int)
              · rw [if_pos ⟨trivial, h7⟩]
                exact iff_of_true ⟨_, rfl⟩
                  (Or.inr (Or.inr (Or.inr (Or.inr (Or.inr (Or.inl ⟨h5, h7⟩))))))
              · rw [if_neg (fun hh => h7 hh.2)]
                by_cases h8 : (Message.unpackHeader (data.take 128)).body_checksum ≠
                    adler32 (data.drop 128)
                · rw [if_pos ⟨trivial, h8⟩]
                  exact iff_of_true ⟨_, rfl⟩
                    (Or.inr (Or.inr (Or.inr (Or.inr (Or.inr (Or.inr (Or.inl ⟨h5, h8⟩)))))))
                · rw [if_neg (fun hh => h8 hh.2)]
                  by_cases h9 : (Message.unpackHeader (data.take 128)).command ∉ acpCommands
                  · rw [if_pos h9]
                    exact iff_of_true ⟨_, rfl⟩
                      (Or.inr (Or.inr (Or.inr (Or.inr (Or.inl h9)))))
                  · rw [if_neg h9]
                    apply iff_of_false
                    · rintro ⟨e, he⟩
                      exact Except.noConfusion he
                    · rintro (h | h | h | h | h | ⟨hl, hh⟩ | ⟨hl, hh⟩ | ⟨hl, hh⟩)
                      · exact h1 h
                      · exact h h2
                      · exact h3 h
                      · exact h4 h
                      · exact h9 h
                      · exact h7 hh
                      · exact h8 hh
                      · exact h6 hh
          · rw [if_neg h5]
            simp only [Option.isSome_none, Bool.false_eq_true, false_and, if_false]
            by_cases h9 : (Message.unpackHeader (data.take 128)).command ∉ acpCommands
            · rw [if_pos h9]
              exact iff_of_true ⟨_, rfl⟩
                (Or.inr (Or.inr (Or.inr (Or.inr (Or.inl h9)))))
            · rw [if_neg h9]
              apply iff_of_false
              · rintro ⟨e, he⟩
                exact Except.noConfusion he
              · rintro (h | h | h | h | h | ⟨hl, hh⟩ | ⟨hl, hh⟩ | ⟨hl, hh⟩)
                · exact h1 h
                · exact h h2
                · exact h3 h
                · exact h4 h
                · exact h9 h
                · exact h5 hl
                · exact h5 hl
                · exact h5 hl

set_option maxRecDepth 8000 in
/-- **C1** counterexample: for a message whose attached body is empty
(`body_size = 0 =` the body's length, checksum computed by the constructor),
`parseRaw(composeRawPacket())` does not return the message itself: the
composed packet is exactly 128 bytes, so the parser reports no body at all
(`body = none`), while the original message carries `some []`. -/
theorem parseRaw_composeRawPacket_empty_body :
    Message.parseRaw (Message.composeRawPacket
        (Message.create 196609 0 0 20 0 (List.replicate 32 0) (some []) none)) ≠
      Except.ok (Message.create 196609 0 0 20 0 (List.replicate 32 0) (some []) none) := by
  decide

/-- Witness for the amended C1 round-trip at a concrete `GetProp` message with
body `[1, 2, 3]`. -/
theorem parseRaw_composeRawPacket_witness :
    Message.parseRaw (Message.composeRawPacket
        (Message.create 196609 0 0 20 0 (List.replicate 32 0) (some [1, 2, 3]) none)) =
      Except.ok (Message.create 196609 0 0 20 0 (List.replicate 32 0)
        (some [1, 2, 3]) none) ∧
      (Message.composeRawPacket
        (Message.create 196609 0 0 20 0 (List.replicate 32 0)
          (some [1, 2, 3]) none)).take 4 = [97, 99, 112, 112] :=
  parseRaw_composeRawPacket
    (Message.create 196609 0 0 20 0 (List.replicate 32 0) (some [1, 2, 3]) none)
    [1, 2, 3] (by decide) (by decide) (by decide) (by decide) (by decide) (by decide)
    (by decide) (by decide) (by decide) (by decide) (by decide) (by decide) (by decide)
    (by decide) (by decide) (by decide)

/-- Witness for C2 at the concrete input `[]`: the empty input is shorter than
128 bytes, so parsing fails. -/
theorem parseRaw_error_iff_witness :
    ∃ e, Message.parseRaw ([] : List Nat) = .error e :=
  (parseRaw_error_iff [] (by simp)).mpr (Or.inl (by decide))

/-! ### The header key derivation (`generateACPHeaderKey`, `src/src/message.js`) -/

/-- Modelled from the spec: the keystream module (`src/keystream`, exporting
`generateACPKeystream`) is not under `src/`.  The spec (§4.1) describes it only
as a fixed deterministic byte generator and pins no byte values, so it is
modelled as an arbitrary fixed deterministic byte sequence; every theorem
below depends only on it being a fixed function of the requested length,
never on the byte values themselves. -/
def generateACPKeystream (n : Nat) : List Nat :=
  (List.range n).map (fun i => (i * 197 + 13) % 256)

/-- `generateACPHeaderKey(password)`: XOR of the first 32 keystream bytes with
the password truncated to 32 code units (`substr(0, 32)`) and right-padded
with NUL bytes to length 32 (`padEnd(32, '\x00')`). -/
def generateACPHeaderKey (password : List Nat) : List Nat :=
  let password_length := 32
  let password_key := generateACPKeystream password_length
  let password_buffer := password.take password_length ++
    List.replicate (password_length - (password.take password_length).length) 0
  (List.range password_length).map
    (fun i => password_key.getD i 0 ^^^ password_buffer.getD i 0)

theorem length_generateACPKeystream (n : Nat) : (generateACPKeystream n).length = n := by
  simp [generateACPKeystream]

theorem map_range_zipWith (f : Nat → Nat → Nat) (a b : List Nat) (n : Nat)
    (ha : a.length = n) (hb : b.length = n) :
    (List.range n).map (fun i => f (a.getD i 0) (b.getD i 0)) = List.zipWith f a b := by
  induction n generalizing a b with
  | zero =>
    cases a
    · cases b
      · simp
      · simp at hb
    · simp at ha
  | succ n ih =>
    cases a with
    | nil => simp at ha
    | cons x xs =>
      cases b with
      | nil => simp at hb
      | cons y ys =>
        rw [List.range_succ_eq_map, List.map_cons, List.map_map]
        simp only [List.zipWith_cons_cons]
        have hcomp : ((fun i => f ((x :: xs).getD i 0) ((y :: ys).getD i 0)) ∘ Nat.succ) =
            fun i => f (xs.getD i 0) (ys.getD i 0) := by
          funext i
          simp [Function.comp, List.getD]
        rw [hcomp, ih xs ys (by simpa using ha) (by simpa using hb)]
        simp [List.getD]

theorem zipWith_xor_replicate_zero (l : List Nat) :
    List.zipWith (fun a b => a ^^^ b) l (List.replicate l.length 0) = l := by
  induction l with
  | nil => simp
  | cons x xs ih => simp [List.replicate_succ, ih]

/-- **C6**: `generateACPHeaderKey(p)` is the first 32 keystream bytes XORed
byte-for-byte with `p` truncated to 32 bytes and NUL-padded to 32; in
particular the empty password yields the raw keystream prefix and `"admin"`
yields the keystream XORed with `"admin"` followed by 27 NUL bytes. -/
theorem generateACPHeaderKey_spec :
    (∀ p : List Nat, generateACPHeaderKey p =
      List.zipWith (fun a b => a ^^^ b) (generateACPKeystream 32)
        (p.take 32 ++ List.replicate (32 - (p.take 32).length) 0)) ∧
    generateACPHeaderKey [] = generateACPKeystream 32 ∧
    generateACPHeaderKey [97, 100, 109, 105, 110] =
      List.zipWith (fun a b => a ^^^ b) (generateACPKeystream 32)
        ([97, 100, 109, 105, 110] ++ List.replicate 27 0) := by
  have hgen : ∀ p : List Nat, generateACPHeaderKey p =
      List.zipWith (fun a b => a ^^^ b) (generateACPKeystream 32)
        (p.take 32 ++ List.replicate (32 - (p.take 32).length) 0) := by
    intro p
    apply map_range_zipWith (fun a b => a ^^^ b) _ _ 32
      (length_generateACPKeystream 32)
    simp only [List.length_append, List.length_replicate, List.length_take]
    omega
  refine ⟨hgen, ?_, ?_⟩
  · rw [hgen []]
    decide
  · rw [hgen [97, 100, 109, 105, 110]]
    decide

/-! ### Session state and encryption installation (`src/src/lib/session.ts`) -/

/-- The encryption context installed by `Session#enableEncryption`
(`new ClientEncryption(key, client_iv, server_iv)`).  The AES-128-CTR/PBKDF2
primitives live in Node's `crypto` module (external to the repository), so the
context is embedded as the key/IV material it is constructed from. -/
structure ClientEncryption where
  key : List Nat
  client_iv : List Nat
  server_iv : List Nat
deriving DecidableEq

/-- The mutable `Session` state used by the claims: the receive buffer, the
reading-depth counter and the optional encryption context. -/
structure Session where
  password : List Nat
  buffer : List Nat
  reading : Nat
  encryption : Option ClientEncryption
deriving DecidableEq

/-- `Session#enableEncryption(key, client_iv, server_iv)`. -/
def Session.enableEncryption (s : Session) (key client_iv server_iv : List Nat) :
    Session :=
  { s with encryption := some ⟨key, client_iv, server_iv⟩ }

/-- `Client#authenticateStageFive`: verify the server's M2 proof
(`srpc.checkM2`, from the external `fast-srp-hap` library; `m2_ok` models
whether verification succeeded) as the try/catch does, and only on success
compute K and install the encryption context. -/
def authenticateStageFive (session : Session) (m2_ok : Bool)
    (k client_iv server_iv : List Nat) : Session × Except String Unit :=
  if m2_ok then (session.enableEncryption k client_iv server_iv, .ok ())
  else (session, .error "Error verifying response (M2)")

/-- **C4**: if M2 verification fails, stage five fails with the M2
verification error and the session state (in particular its encryption
context) is unchanged; the encryption context is installed exactly on the
success path, with the SRP key and the two nonces. -/
theorem authenticateStageFive_spec (s : Session) (ok : Bool)
    (k civ siv : List Nat) :
    (authenticateStageFive s ok k civ siv).2 =
      (if ok then .ok () else .error "Error verifying response (M2)") ∧
    (authenticateStageFive s ok k civ siv).1 =
      (if ok then s.enableEncryption k civ siv else s) ∧
    (authenticateStageFive s false k civ siv).1 = s ∧
    (authenticateStageFive s false k civ siv).1.encryption = s.encryption ∧
    (s.enableEncryption k civ siv).encryption = some ⟨k, civ, siv⟩ := by
  cases ok <;> simp [authenticateStageFive, Session.enableEncryption]

/-! ### `Session#receiveSize` and its dead timeout (`src/src/lib/session.ts`) -/

/-- The timeout guard of `Session#receiveSize`:
`if (last_received_at > Date.now() + timeout)`. -/
def receiveTimedOut (last_received_at now timeout : Nat) : Bool :=
  decide (last_received_at > now + timeout)

/-- The polling loop of `Session#receiveSize`, embedded with explicit time:
`now` is the current `Date.now()` reading; each iteration sleeps 1 ms plus
`delta i` of extra elapsed time, and `arrive i` is whatever the socket
handler appended to the buffer during the sleep.  `fuel` bounds the number of
observed iterations; `none` means the loop was still waiting when fuel ran
out. -/
def receiveSizeLoop (arrive : Nat → List Nat) (delta : Nat → Nat) (timeout : Nat) :
    Nat → Nat → Nat → List Nat → List Nat → Nat → Nat →
    Option (Except String (List Nat))
  | 0, _, _, _, _, _, _ => none
  | fuel + 1, i, waiting_for, chunks, buffer, now, last_received_at =>
    if waiting_for = 0 then some (.ok chunks)
    else if receiveTimedOut last_received_at now timeout then
      some (.error "Timeout")
    else
      let now' := now + 1 + delta i
      let buffer' := buffer ++ arrive i
      if buffer'.isEmpty then
        receiveSizeLoop arrive delta timeout fuel (i + 1) waiting_for chunks buffer'
          now' last_received_at
      else
        let received := buffer'.take waiting_for
        receiveSizeLoop arrive delta timeout fuel (i + 1)
          (waiting_for - received.length) (chunks ++ received)
          (buffer'.drop received.length) now' now'

/-- `Session#receiveSize(size, timeout)`: take what is already buffered, then
poll; `t0` is `Date.now()` at entry. -/
def receiveSize (arrive : Nat → List Nat) (delta : Nat → Nat) (fuel size : Nat)
    (buffer : List Nat) (t0 timeout : Nat) : Option (Except String (List Nat)) :=
  let received := buffer.take size
  receiveSizeLoop arrive delta timeout fuel 0 (size - received.length) received
    (buffer.drop size) t0 t0

theorem receiveSizeLoop_no_timeout (arrive : Nat → List Nat) (delta : Nat → Nat)
    (timeout : Nat) (fuel : Nat) :
    ∀ (i waiting chunks' buffer now last : _), last ≤ now →
      (∀ e, receiveSizeLoop arrive delta timeout fuel i waiting chunks' buffer now last ≠
        some (.error e)) ∧
      (∀ out, receiveSizeLoop arrive delta timeout fuel i waiting chunks' buffer now last =
        some (.ok out) → out.length = chunks'.length + waiting) := by
  induction fuel with
  | zero =>
    intro i waiting chunks' buffer now last _
    exact ⟨fun e h => by simp [receiveSizeLoop] at h,
      fun out h => by simp [receiveSizeLoop] at h⟩
  | succ fuel ih =>
    intro i waiting chunks' buffer now last hle
    have hguard : receiveTimedOut last now timeout = false := by
      simp only [receiveTimedOut, decide_eq_false_iff_not]
      omega
    by_cases hw : waiting = 0
    · subst hw
      refine ⟨fun e h => ?_, fun out h => ?_⟩
      · simp [receiveSizeLoop] at h
      · simp only [receiveSizeLoop, if_pos rfl, Option.some.injEq] at h
        cases h
        simp
    · by_cases hbuf : (buffer ++ arrive i).isEmpty
      · have heq : receiveSizeLoop arrive delta timeout (fuel + 1) i waiting chunks'
            buffer now last =
            receiveSizeLoop arrive delta timeout fuel (i + 1) waiting chunks'
              (buffer ++ arrive i) (now + 1 + delta i) last := by
          simp only [receiveSizeLoop, if_neg hw, hguard, Bool.false_eq_true,
            if_false, if_pos hbuf]
        have hrec := ih (i + 1) waiting chunks' (buffer ++ arrive i)
          (now + 1 + delta i) last (by omega)
        rw [heq]
        exact hrec
      · have heq : receiveSizeLoop arrive delta timeout (fuel + 1) i waiting chunks'
            buffer now last =
            receiveSizeLoop arrive delta timeout fuel (i + 1)
              (waiting - ((buffer ++ arrive i).take waiting).length)
              (chunks' ++ (buffer ++ arrive i).take waiting)
              ((buffer ++ arrive i).drop ((buffer ++ arrive i).take waiting).length)
              (now + 1 + delta i) (now + 1 + delta i) := by
          simp only [receiveSizeLoop, if_neg hw, hguard, Bool.false_eq_true,
            if_false, if_neg hbuf]
        have hrec := ih (i + 1) (waiting - ((buffer ++ arrive i).take waiting).length)
          (chunks' ++ (buffer ++ arrive i).take waiting)
          ((buffer ++ arrive i).drop ((buffer ++ arrive i).take waiting).length)
          (now + 1 + delta i) (now + 1 + delta i) le_rfl
        rw [heq]
        refine ⟨hrec.1, fun out h => ?_⟩
        have hlen := hrec.2 out h
        have htk : ((buffer ++ arrive i).take waiting).length ≤ waiting := by
          simp
        simp only [List.length_append] at hlen
        omega

/-- **C5** (what the code actually does): `receiveSize` can never fail with a
timeout error — the guard `last_received_at > Date.now() + timeout` compares a
past timestamp against a future one and is never true — and when it returns,
it returns exactly `size` bytes; if the buffer already holds `size` bytes it
returns the first `size` bytes of the buffer immediately. -/
theorem receiveSize_spec (arrive : Nat → List Nat) (delta : Nat → Nat)
    (fuel size : Nat) (buffer : List Nat) (t0 timeout : Nat) :
    (∀ e, receiveSize arrive delta fuel size buffer t0 timeout ≠ some (.error e)) ∧
    (∀ out, receiveSize arrive delta fuel size buffer t0 timeout = some (.ok out) →
      out.length = size) ∧
    (size ≤ buffer.length →
      receiveSize arrive delta (fuel + 1) size buffer t0 timeout =
        some (.ok (buffer.take size))) := by
  have h := receiveSizeLoop_no_timeout arrive delta timeout fuel 0
    (size - (buffer.take size).length) (buffer.take size) (buffer.drop size) t0 t0 le_rfl
  refine ⟨h.1, fun out hout => ?_, fun hsz => ?_⟩
  · have := h.2 out hout
    have htk : (buffer.take size).length ≤ size := by simp
    omega
  · have htk : (buffer.take size).length = size := by simp; omega
    simp only [receiveSize, htk, Nat.sub_self]
    simp [receiveSizeLoop]

/-- Witness for C5 at a concrete input: with `[7, 8, 9]` buffered,
`receiveSize(2)` returns `[7, 8]` and does not produce a timeout error. -/
theorem receiveSize_spec_witness :
    receiveSize (fun _ => []) (fun _ => 0) 3 2 [7, 8, 9] 0 10000 =
      some (.ok [7, 8]) ∧
    receiveSize (fun _ => []) (fun _ => 0) 3 2 [7, 8, 9] 0 10000 ≠
      some (.error "Timeout") :=
  ⟨(receiveSize_spec (fun _ => []) (fun _ => 0) 2 2 [7, 8, 9] 0 10000).2.2
      (by decide),
   (receiveSize_spec (fun _ => []) (fun _ => 0) 3 2 [7, 8, 9] 0 10000).1 "Timeout"⟩

/-! ### CFLBinaryPList (modelled from the spec) and monitor frames -/

/-- A CFL binary plist value (spec §3): null, booleans, big-endian integers,
reals and dates (kept as raw bytes; their floating-point reading is outside
the shallow embedding), data, ASCII and UTF-16BE strings, arrays and
dictionaries. -/
inductive CFLValue where
  | nul
  | boolean (b : Bool)
  | int (n : Nat)
  | real32 (bytes : List Nat)
  | real64 (bytes : List Nat)
  | date (bytes : List Nat)
  | data (bytes : List Nat)
  | strA (bytes : List Nat)
  | strU (bytes : List Nat)
  | arr (xs : List CFLValue)
  | dict (ps : List (CFLValue × CFLValue))

/-- Big-endian natural from a byte list. -/
def beNat (l : List Nat) : Nat := l.foldl (fun a b => a * 256 + b) 0

/-- Size-of-size prefix (spec §4.4): a `0x10 + k` byte followed by `2^k`
big-endian size bytes. -/
def parseCFLSize : List Nat → Except String (Nat × List Nat)
  | [] => .error "cfl: unexpected end of input"
  | b :: rest =>
    if 0x10 ≤ b ∧ b ≤ 0x13 then
      let n := 2 ^ (b - 0x10)
      if n ≤ rest.length then .ok (beNat (rest.take n), rest.drop n)
      else .error "cfl: unexpected end of size"
    else .error "cfl: bad size marker"

mutual

/-- One CFL object of the tagged grammar of spec §3/§4.4; `fuel` bounds the
recursion depth. -/
def parseCFLObject : Nat → List Nat → Except String (CFLValue × List Nat)
  | 0, _ => .error "cfl: depth exhausted"
  | _ + 1, [] => .error "cfl: unexpected end of input"
  | fuel + 1, tag :: rest =>
    if tag = 0x00 then .ok (.nul, rest)
    else if tag = 0x08 then .ok (.boolean false, rest)
    else if tag = 0x09 then .ok (.boolean true, rest)
    else if 0x10 ≤ tag ∧ tag ≤ 0x13 then
      let n := 2 ^ (tag - 0x10)
      if n ≤ rest.length then .ok (.int (beNat (rest.take n)), rest.drop n)
      else .error "cfl: unexpected end of integer"
    else if tag = 0x22 then
      if 4 ≤ rest.length then .ok (.real32 (rest.take 4), rest.drop 4)
      else .error "cfl: unexpected end of real"
    else if tag = 0x23 then
      if 8 ≤ rest.length then .ok (.real64 (rest.take 8), rest.drop 8)
      else .error "cfl: unexpected end of real"
    else if tag = 0x33 then
      if 8 ≤ rest.length then .ok (.date (rest.take 8), rest.drop 8)
      else .error "cfl: unexpected end of date"
    else if tag = 0x4f then
      match parseCFLSize rest with
      | .error e => .error e
      | .ok (n, s) =>
        if n ≤ s.length then .ok (.data (s.take n), s.drop n)
        else .error "cfl: unexpected end of data"
    else if tag = 0x5f then
      match parseCFLSize rest with
      | .error e => .error e
      | .ok (n, s) =>
        if n ≤ s.length then .ok (.strA (s.take n), s.drop n)
        else .error "cfl: unexpected end of string"
    else if tag = 0x6f then
      match parseCFLSize rest with
      | .error e => .error e
      | .ok (n, s) =>
        if 2 * n ≤ s.length then .ok (.strU (s.take (2 * n)), s.drop (2 * n))
        else .error "cfl: unexpected end of string"
    else if tag = 0xaf then
      match parseCFLArray fuel rest with
      | .error e => .error e
      | .ok (vs, s) => .ok (.arr vs, s)
    else if tag = 0xdf then
      match parseCFLDict fuel rest with
      | .error e => .error e
      | .ok (ps, s) => .ok (.dict ps, s)
    else .error "cfl: unsupported tag"

/-- Array elements up to the terminating zero byte. -/
def parseCFLArray : Nat → List Nat → Except String (List CFLValue × List Nat)
  | 0, _ => .error "cfl: depth exhausted"
  | _ + 1, [] => .error "cfl: unexpected end of array"
  | fuel + 1, b :: rest =>
    if b = 0 then .ok ([], rest)
    else
      match parseCFLObject fuel (b :: rest) with
      | .error e => .error e
      | .ok (v, s) =>
        match parseCFLArray fuel s with
        | .error e => .error e
        | .ok (vs, s') => .ok (v :: vs, s')

/-- Dictionary key/value pairs up to the terminating zero byte. -/
def parseCFLDict : Nat → List Nat → Except String (List (CFLValue × CFLValue) × List Nat)
  | 0, _ => .error "cfl: depth exhausted"
  | _ + 1, [] => .error "cfl: unexpected end of dict"
  | fuel + 1, b :: rest =>
    if b = 0 then .ok ([], rest)
    else
      match parseCFLObject fuel (b :: rest) with
      | .error e => .error e
      | .ok (k, s) =>
        match parseCFLObject fuel s with
        | .error e => .error e
        | .ok (v, s') =>
          match parseCFLDict fuel s' with
          | .error e => .error e
          | .ok (ps, s'') => .ok ((k, v) :: ps, s'')

end

/-- Modelled from the spec: `CFLBinaryPList.parse` lives in `src/cflbinary`,
which is not under `src/`.  Per spec §4.4 the parser consumes the keystream in
lockstep with the input, XOR-unmasking each byte read, and decodes the tagged
tree grammar; the monitor-frame claim depends only on which bytes are handed
to this parser, never on its result. -/
def CFLBinaryPList.parse (data : List Nat) : Except String CFLValue :=
  let unmasked := List.zipWith (fun a b => a ^^^ b) data
    (generateACPKeystream data.length)
  match parseCFLObject (unmasked.length + 1) unmasked with
  | .ok (v, _) => .ok v
  | .error e => .error e

/-- An observable effect of the unsolicited-data dispatcher: a published
monitor event (the `monitor-data` emit, or the logged parse failure), or the
warning for unrecognised data. -/
inductive SessionAction where
  | monitorData (parsed : Except String CFLValue)
  | warnUnknownData

/-- `Session#handleMonitorData`: read the 8-byte header, take the big-endian
u32 at offset 4 as the body length, read the body and parse it as a
CFLBinaryPList.  `receive` is modelled synchronously on the buffer; `none`
stands for a read that must wait for more socket data (the asynchronous
path, which the claims do not touch). -/
def handleMonitorData (s : Session) : Session × Option SessionAction :=
  if 8 ≤ s.buffer.length then
    let header := s.buffer.take 8
    let size := readU32 header 4
    let rest := s.buffer.drop 8
    if size ≤ rest.length then
      ({ s with buffer := rest.drop size },
        some (.monitorData (CFLBinaryPList.parse (rest.take size))))
    else (s, none)
  else (s, none)

/-- `Session#handleData` together with the `_handleData` guard: runs only
while no `receive` is active (`reading = 0`) and the buffer is non-empty; a
buffer starting `"XE"` (0x58 0x45) is handled as a monitor frame, any other
prefix logs a warning and empties the whole buffer. -/
def handleData (s : Session) : Session × Option SessionAction :=
  if s.reading ≠ 0 ∨ s.buffer.isEmpty then (s, none)
  else if s.buffer.take 2 = [88, 69] then handleMonitorData s
  else ({ s with buffer := [] }, some .warnUnknownData)

/-- **C8**: at reading depth 0, a buffer beginning `"XE"` with the full frame
available has its 8-byte header consumed, the big-endian u32 at offset 4 of
that header taken as the body length, that many body bytes consumed, and the
body handed to the CFLBinaryPList parser as the emitted monitor event; any
other non-empty buffered data produces the warning and an emptied buffer. -/
theorem handleData_spec (s : Session) :
    (s.reading = 0 → s.buffer.take 2 = [88, 69] →
      8 + readU32 (s.buffer.take 8) 4 ≤ s.buffer.length →
      handleData s =
        ({ s with buffer := s.buffer.drop (8 + readU32 (s.buffer.take 8) 4) },
          some (.monitorData (CFLBinaryPList.parse
            ((s.buffer.drop 8).take (readU32 (s.buffer.take 8) 4)))))) ∧
    (s.reading = 0 → s.buffer ≠ [] → s.buffer.take 2 ≠ [88, 69] →
      handleData s = ({ s with buffer := [] }, some .warnUnknownData)) := by
  constructor
  · intro hr hxe hlen
    have hne : ¬ (s.reading ≠ 0 ∨ s.buffer.isEmpty) := by
      rintro (h | h)
      · exact h hr
      · rw [List.isEmpty_iff] at h
        rw [h] at hxe
        simp at hxe
    rw [handleData, if_neg hne, if_pos hxe, handleMonitorData,
      if_pos (by omega : 8 ≤ s.buffer.length),
      if_pos (by simp only [List.length_drop]; omega :
        readU32 (s.buffer.take 8) 4 ≤ (s.buffer.drop 8).length)]
    rw [List.drop_drop]

  · intro hr hne hxe
    have hg : ¬ (s.reading ≠ 0 ∨ s.buffer.isEmpty) := by
      rintro (h | h)
      · exact h hr
      · exact hne (List.isEmpty_iff.mp h)
    rw [handleData, if_neg hg, if_neg hxe]

/-- Witness for C8: the monitor frame `58 45 00 95 00 00 00 03` followed by a
3-byte body, and a buffer with an unknown prefix. -/
theorem handleData_spec_witness :
    handleData ⟨[], [88, 69, 0, 149, 0, 0, 0, 3, 13, 14, 15], 0, none⟩ =
      (⟨[], [], 0, none⟩,
        some (.monitorData (CFLBinaryPList.parse [13, 14, 15]))) ∧
    handleData ⟨[], [1, 2, 3], 0, none⟩ =
      (⟨[], [], 0, none⟩, some .warnUnknownData) :=
  ⟨(handleData_spec ⟨[], [88, 69, 0, 149, 0, 0, 0, 3, 13, 14, 15], 0, none⟩).1
      (by decide) (by decide) (by decide),
   (handleData_spec ⟨[], [1, 2, 3], 0, none⟩).2 (by decide) (by decide) (by decide)⟩

/-! ### The property catalogue (`properties.ts`) and the `Property` codec -/

/-- A validator as stored in the catalogue: the closure produced by
`Validators.range`, a plain array of accepted values, or the custom `GPIs`
length predicate (`value.length === 8`). -/
inductive PropValidator where
  | range (lo hi : Nat)
  | values (vs : List Nat)
  | bufferLength (n : Nat)
deriving DecidableEq

/-- One catalogue entry `name: [type, description, validation]`. -/
structure CatEntry where
  name : String
  type : String
  description : String
  validator : Option PropValidator
deriving DecidableEq

def acp_properties_0 : List CatEntry := [
  ⟨"buil", "str", "Build string?", none⟩,
  ⟨"DynS", "cfb", "DNS/Bonjour", none⟩,
  ⟨"cfpf", "cfb", "??", none⟩,
  ⟨"cloD", "cfb", "??", none⟩,
  ⟨"fire", "cfb", "Firewall", none⟩,
  ⟨"srcv", "str", "Source version", none⟩,
  ⟨"syNm", "str", "Device name", none⟩,
  ⟨"syPW", "str", "Router administration password", none⟩,
  ⟨"syPR", "str", "syPR string???", none⟩,
  ⟨"syGP", "str", "Router guest password???", none⟩,
  ⟨"syDs", "str", "System description", none⟩,
  ⟨"syVs", "str", "System version", none⟩,
  ⟨"syVr", "str", "System version???", none⟩,
  ⟨"syIn", "str", "System information???", none⟩,
  ⟨"syFl", "hex", "????", none⟩,
  ⟨"syAM", "str", "Model identifier", none⟩,
  ⟨"syAP", "u32", "Product ID", none⟩,
  ⟨"sySN", "str", "Serial number", none⟩,
  ⟨"ssSK", "str", "Apple SKU", none⟩,
  ⟨"syRe", "u32", "Country", some (.range 0 54)⟩,
  ⟨"syLR", "cfb", "syLR blob", none⟩,
  ⟨"syAR", "cfb", "syAR blob", none⟩,
  ⟨"syUT", "u32", "System uptime", none⟩,
  ⟨"minS", "str", "apple-minver", none⟩,
  ⟨"chip", "str", "SoC description", none⟩,
  ⟨"card", "str", "Hareware information??", none⟩,
  ⟨"sySI", "cfb", "System info blob?", none⟩,
  ⟨"TMEn", "hex", "TMEn???", none⟩,
  ⟨"CLTM", "cfb", "CLTM???", none⟩,
  ⟨"sPLL", "cfb", "??", none⟩,
  ⟨"sySt", "cfb", "System Sstatus", none⟩,
  ⟨"syIg", "cfb", "Ignored status codes", none⟩,
  ⟨"syBL", "str", "Bootloader version string", none⟩,
  ⟨"time", "u32", "System time", none⟩,
  ⟨"timz", "cfb", "Timezone config blob", none⟩,
  ⟨"usrd", "cfb", "Disk Sharing users", none⟩,
  ⟨"uuid", "uid", "Device UUID", none⟩,
  ⟨"sttE", "boo", "Send AirPort Analytics data to Apple", none⟩,
  ⟨"stat", "cfb", "System debug data", none⟩,
  ⟨"dSpn", "cfb", "Disk spin status?", none⟩,
  ⟨"syMS", "str", "MLB serial number", none⟩,
  ⟨"IGMP", "boo", "Enable IGMP Snooping", none⟩]

def acp_properties_1 : List CatEntry := [
  ⟨"diag", "ui8", "diag???", none⟩,
  ⟨"raNm", "str", "Radio name", none⟩,
  ⟨"raMA", "mac", "Wi-Fi MAC address", none⟩,
  ⟨"raDS", "boo", "Enable DHCP server", none⟩,
  ⟨"raNA", "boo", "Enable NAT", none⟩,
  ⟨"raPo", "str", "Transmit Power", none⟩,
  ⟨"raSL", "cfb", "Connected Wi-Fi clients", none⟩,
  ⟨"raSR", "cfb", "Wi-Fi scan results", none⟩,
  ⟨"WiFi", "cfb", "Wi-Fi configuration", none⟩,
  ⟨"rCAL", "cfb", "Radio calibration data?", none⟩,
  ⟨"peUN", "str", "PPPoE username", none⟩,
  ⟨"pePW", "str", "PPPoE password", none⟩,
  ⟨"waCV", "hex", "WAN config mode?", none⟩,
  ⟨"waIn", "bin", "WAN interface mode?", none⟩,
  ⟨"waD1", "ip4", "IPv4 DNS server #1", none⟩,
  ⟨"waD2", "ip4", "IPv4 DNS server #2", none⟩,
  ⟨"waD3", "ip4", "IPv4 DNS server #3", none⟩,
  ⟨"waC1", "ip4", "Automatically obtained IPv4 DNS server #1", none⟩,
  ⟨"waC2", "ip4", "Automatically obtained IPv4 DNS server #2", none⟩,
  ⟨"waC3", "ip4", "Automatically obtained IPv4 DNS server #3", none⟩,
  ⟨"waIP", "ip4", "WAN IPv4 address", none⟩,
  ⟨"waSM", "ip4", "WAN IPv4 subnet mask", none⟩,
  ⟨"waRA", "ip4", "WAN IPv4 router address", none⟩,
  ⟨"waDC", "str", "WAN DHCP client ID", none⟩,
  ⟨"waMA", "mac", "WAN MAC address", none⟩,
  ⟨"waDN", "str", "DNS search domain", none⟩,
  ⟨"waNM", "boo", "Disable setup over WAN", none⟩,
  ⟨"waSD", "u32", "??", none⟩,
  ⟨"waLL", "ip4", "IPv4 local link address??", none⟩,
  ⟨"waDI", "cfb", "WAN DHCP info?", none⟩,
  ⟨"laIP", "ip4", "LAN IPv4 address", none⟩,
  ⟨"laSM", "ip4", "LAN IPv4 subnet mask", none⟩,
  ⟨"laMA", "mac", "LAN MAC address", none⟩,
  ⟨"dhBg", "ip4", "DHCP server start address", none⟩,
  ⟨"dhEn", "ip4", "DHCP server end address", none⟩,
  ⟨"dhSN", "ip4", "DHCP server subnet mask", none⟩,
  ⟨"dhRo", "ip4", "??", none⟩,
  ⟨"dhLe", "u32", "DHCP server lease time", none⟩,
  ⟨"DRes", "cfb", "DHCP reservations", none⟩,
  ⟨"dhSL", "cfb", "DHCP server leases", none⟩,
  ⟨"gnFl", "u32", "??", none⟩,
  ⟨"gnBg", "ip4", "Guest Network DHCP server start address", none⟩]

def acp_properties_2 : List CatEntry := [
  ⟨"gnEn", "ip4", "Guest Network DHCP server end address", none⟩,
  ⟨"gnSN", "ip4", "Guest Network DHCP server subnet mask", none⟩,
  ⟨"gnRo", "ip4", "Guest Network DHCP server router address", none⟩,
  ⟨"gnLe", "u32", "Guest Network DHCP server lease time", none⟩,
  ⟨"naFl", "u32", "Enable NAT-PMP", some (.values [0, 1])⟩,
  ⟨"nDMZ", "ip4", "NAT Default Host", none⟩,
  ⟨"tACL", "cfb", "Timed Access Control", none⟩,
  ⟨"ntSV", "str", "NTP Server Hostname", none⟩,
  ⟨"slvl", "u32", "System log level", some (.range 0 7)⟩,
  ⟨"logm", "log", "System log data", none⟩,
  ⟨"snAF", "u32", "Disable SNMP over WAN", some (.values [0, 1])⟩,
  ⟨"USBi", "cfb", "USB Info", none⟩,
  ⟨"prni", "cfb", "USB Printer Info", none⟩,
  ⟨"prnI", "str", "USB Printer Name", none⟩,
  ⟨"prnR", "bin", "USB Priner Info???", none⟩,
  ⟨"MaSt", "cfb", "USB Mass Storage Info", none⟩,
  ⟨"seFl", "bin", "????", none⟩,
  ⟨"dbug", "hex", "Debug flags", some (.range 0 0xffffffff)⟩,
  ⟨"ctim", "hex", "Default Settings ??", none⟩,
  ⟨"isAC", "ui8", "Power", some (.values [0, 1])⟩,
  ⟨"Prof", "cfb", "Restore Profile Blob", none⟩,
  ⟨"leAc", "u32", "Status light", some (.values [1, 2])⟩,
  ⟨"APID", "u32", "Model", none⟩,
  ⟨"lcVs", "str", "lcVs Version String?", none⟩,
  ⟨"wsci", "cfb", "wsci Blob", none⟩,
  ⟨"OTPR", "hex", "machdep.otpval", none⟩,
  ⟨"acRB", "dec", "Reboot device flag", some (.values [0])⟩,
  ⟨"acRI", "dec", "Reload services??", some (.values [0])⟩,
  ⟨"acRN", "dec", "Resets something... (?)", some (.values [0])⟩,
  ⟨"acRF", "dec", "Reset to factory defaults", some (.values [0])⟩,
  ⟨"LEDc", "u32", "LED colour/pattern", some (.range 0 3)⟩,
  ⟨"GPIs", "bin", "GPIOs values", some (.bufferLength 8)⟩,
  ⟨"auNP", "str", "AirPlay Password", none⟩,
  ⟨"auRR", "u16", "Enable AirPlay", some (.values [0, 1])⟩,
  ⟨"auHK", "bpl", "AirPlay HomeKit pairing data", none⟩,
  ⟨"auHE", "boo", "HomeKit pairing enabled", none⟩,
  ⟨"fe01", "hex", "????", none⟩,
  ⟨"feat", "str", "Supported features?", none⟩,
  ⟨"prop", "str", "Valid acp properties", none⟩,
  ⟨"hw01", "hex", "????", none⟩,
  ⟨"pECC", "cfb", "PCIe ECC Blob?", none⟩,
  ⟨"fugp", "str", "Firmware upgrade progress", none⟩]

def acp_properties_3 : List CatEntry := [
  ⟨"cks0", "hex", "Bootloader Flash Checksum", none⟩,
  ⟨"cks1", "hex", "Primary Flash Checksum", none⟩,
  ⟨"cks2", "hex", "Secondary Flash Checksum", none⟩,
  ⟨"6cfg", "u32", "IPv6 mode", none⟩,
  ⟨"6aut", "boo", "IPv6 autoconfiguration", none⟩,
  ⟨"6Wad", "ip6", "WAN IPv6 address", none⟩,
  ⟨"6Wgw", "ip6", "WAN IPv6 router address", none⟩,
  ⟨"6Wte", "ip4", "IPv6 tunnel endpoint", none⟩,
  ⟨"6Lfw", "boo", "Enable LAN IPv6", none⟩,
  ⟨"6Lad", "ip6", "LAN IPv6 address", none⟩,
  ⟨"6Lfx", "u32", "LAN IPv6 prefix length", some (.range 0 128)⟩,
  ⟨"6sfw", "boo", "Enable IPv6 firewall", none⟩,
  ⟨"6trd", "boo", "Allow Teredo", none⟩,
  ⟨"6fwl", "cfb", "IPv6 firewall", none⟩,
  ⟨"6NS1", "ip6", "IPv6 DNS server #1", none⟩,
  ⟨"6NS2", "ip6", "IPv6 DNS server #2", none⟩,
  ⟨"6NS3", "ip6", "IPv6 DNS server #3", none⟩,
  ⟨"6PDa", "ip6", "LAN IPv6 address block", none⟩,
  ⟨"6PDl", "u32", "LAN IPv6 prefix length", some (.range 0 128)⟩,
  ⟨"6CWa", "ip6", "WAN IPv6 tunnel address", none⟩,
  ⟨"6CWp", "u32", "WAN IPv6 tunnel prefix length", some (.range 0 128)⟩,
  ⟨"6CWg", "ip6", "WAN IPv6 6to4 address", none⟩,
  ⟨"6CLa", "ip6", "LAN IPv6 address", none⟩,
  ⟨"6NSa", "ip6", "IPv6 DNS server #1", none⟩,
  ⟨"6NSb", "ip6", "IPv6 DNS server #2", none⟩,
  ⟨"6NSc", "ip6", "IPv6 DNS server #3", none⟩,
  ⟨"6CPa", "ip6", "LAN IPv6 address", none⟩,
  ⟨"6CPl", "u32", "LAN IPv6 prefix length", none⟩,
  ⟨"6!at", "ui8", "??", none⟩,
  ⟨"rteI", "cfb", "rteI Blob", none⟩,
  ⟨"wbEn", "boo", "Enable wide-area Bonjour", none⟩,
  ⟨"wbHN", "str", "Wide-area Bonjour hostname", none⟩,
  ⟨"wbHU", "str", "Wide-area Bonjour TSIG key", none⟩,
  ⟨"wbHP", "str", "Wide-area Bonjour TSIG pass", none⟩,
  ⟨"wbAC", "boo", "Enable wide-area Bonjour DNS-SD", none⟩,
  ⟨"iCld", "cfb", "Back to My Mac (iCloud) accounts", none⟩,
  ⟨"iCLH", "cfb", "iCloud status", none⟩,
  ⟨"SUEn", "boo", "Check for firmware update", none⟩,
  ⟨"SUFq", "u32", "Update frequency", none⟩]

/-- The shipped property catalogue `_props` (`properties.ts`): every
uncommented entry, in source order (split into four chunks only to keep
elaboration fast). -/
def acp_properties : List CatEntry :=
  acp_properties_0 ++ acp_properties_1 ++ acp_properties_2 ++ acp_properties_3

/-- The sixteen logical type tags documented by the spec (§3). -/
def specLogicalTypes : List String :=
  ["str", "dec", "hex", "log", "mac", "cfb", "bin", "u8", "u16", "u32", "ui8",
   "ip4", "ip6", "uid", "boo", "bpl"]

/-- The type whitelist of `generateACPProperties` (`property.ts`):
`['str', 'dec', 'hex', 'log', 'mac', 'cfb', 'bin']`. -/
def acpPropertyTypes : List String := ["str", "dec", "hex", "log", "mac", "cfb", "bin"]

/-- A validated property-table row. -/
structure PropData where
  name : String
  type : String
  description : String
  validator : Option PropValidator
deriving DecidableEq

/-- `generateACPProperties` (`property.ts`): checks every catalogue entry
(4-character name, type in the whitelist, non-empty description), throwing on
the first violation; it runs at module load via
`export const props = generateACPProperties()`. -/
def generateACPProperties : Except String (List PropData) :=
  acp_properties.foldlM
    (fun acc e =>
      if e.name.data.length != 4 then
        .error ("Bad name in ACP properties list: " ++ e.name)
      else if !(acpPropertyTypes.contains e.type) then
        .error ("Bad type in ACP properties list for name: " ++ e.name ++ " - " ++ e.type)
      else if e.description = "" then
        .error ("Missing description in ACP properties list for name: " ++ e.name)
      else .ok (acc ++ [⟨e.name, e.type, e.description, e.validator⟩])) []

/-- **C9** (what the code does): every shipped catalogue entry does carry one
of the sixteen documented logical type tags, but `generateACPProperties` does
NOT accept the catalogue: its whitelist stops at the seven original tags, so
it throws `Bad type` at the first `u32` entry (`syAP`, the Product ID) — the
module-level `props` initialiser fails. -/
theorem generateACPProperties_spec :
    acp_properties.all (fun e => specLogicalTypes.contains e.type) = true ∧
    generateACPProperties =
      .error "Bad type in ACP properties list for name: syAP - u32" := by
  constructor
  · decide
  · rfl

/-- The four-NUL property name sentinel. -/
def nulPropName : String := "\x00\x00\x00\x00"

/-- A JavaScript value as passed to the `Property` constructor or stored in
`this.value`: a Buffer, a string (UTF-16 code units) or a number. -/
inductive JSValue where
  | buf (bytes : List Nat)
  | str (s : String)
  | num (n : Int)
deriving DecidableEq

/-- A constructed `Property`: both fields may be `undefined`. -/
structure ACPProperty where
  name : Option String
  value : Option JSValue
deriving DecidableEq

/-- JavaScript truthiness of an optional string (`undefined` and `''` falsy). -/
def truthyStr : Option String → Bool
  | none => false
  | some s => s ≠ ""

/-- JavaScript truthiness of an optional value (`undefined`, `''` and `0`
falsy; every Buffer object truthy). -/
def truthyVal : Option JSValue → Bool
  | none => false
  | some (.buf _) => true
  | some (.str s) => s ≠ ""
  | some (.num n) => n ≠ 0

/-- `Buffer.from(string, 'binary')`: each UTF-16 code unit masked to a byte. -/
def latin1Bytes (s : String) : List Nat := s.data.map (fun c => c.toNat % 256)

def hexDigit? (c : Char) : Option Nat :=
  if '0' ≤ c ∧ c ≤ '9' then some (c.toNat - 48)
  else if 'a' ≤ c ∧ c ≤ 'f' then some (c.toNat - 87)
  else if 'A' ≤ c ∧ c ≤ 'F' then some (c.toNat - 55)
  else none

/-- `Buffer.from(str, 'hex')`: consume hex-digit pairs, stopping at the first
invalid pair. -/
def hexPairs : List Char → List Nat
  | c1 :: c2 :: rest =>
    match hexDigit? c1, hexDigit? c2 with
    | some a, some b => (a * 16 + b) :: hexPairs rest
    | _, _ => []
  | _ => []

/-- `Property.getSupportedPropertyNames()`: the catalogue names.  In the
shipped code this reads the module-level `props = generateACPProperties()`,
whose initialiser in fact throws (`generateACPProperties_spec`); the
`Property` operations are modelled against the catalogue as written, i.e. as
if the table had loaded. -/
def getSupportedPropertyNames : List String := acp_properties.map (fun e => e.name)

/-- `Property.getPropertyInfoString(propName, 'type')`: `undefined` for a
falsy name, an unknown name, or a falsy entry field. -/
def getPropertyInfoType (propName : Option String) : Option String :=
  match propName with
  | none => none
  | some s =>
    if s = "" then none
    else
      match acp_properties.find? (fun e => e.name = s) with
      | none => none
      | some e => if e.type = "" then none else some e.type

/-- `Property.getPropertyInfoString(propName, 'validator')`. -/
def getPropertyInfoValidator (propName : Option String) : Option PropValidator :=
  match propName with
  | none => none
  | some s =>
    if s = "" then none
    else
      match acp_properties.find? (fun e => e.name = s) with
      | none => none
      | some e => e.validator

/-- The types for which `ValueInitialisers` has a handler. -/
def valueInitialiserTypes : List String := ["dec", "hex", "mac", "bin", "cfb", "log", "str"]

/-- The `ValueInitialisers` table (`property.ts`): coerce the host value to a
Buffer per type tag.  Numbers use `writeUInt32BE` (range-checked); `mac`
accepts 6 raw bytes or `aa:bb:cc:dd:ee:ff` text. -/
def valueInitialiser (t : String) (v : JSValue) : Except String (List Nat) :=
  if t = "dec" ∨ t = "hex" then
    match v with
    | .buf b => .ok b
    | .num n => if 0 ≤ n ∧ n < 4294967296 then .ok (be32u n.toNat)
        else .error "RangeError"
    | .str s => .ok (latin1Bytes s)
  else if t = "mac" then
    match v with
    | .buf b => .ok b
    | .str s =>
      if s.data.length = 6 then .ok (latin1Bytes s)
      else
        let mac_bytes := s.splitOn ":"
        if mac_bytes.length = 6 then .ok (hexPairs (String.join mac_bytes).data)
        else .error ("Invalid mac value: " ++ s)
    | .num _ => .error "Invalid mac value"
  else
    match v with
    | .buf b => .ok b
    | .str s => .ok (latin1Bytes s)
    | .num _ => .error ("Invalid " ++ t ++ " value")

/-- Apply a stored validator as the constructor does (`validator(v, name)`):
the `range` closure checks `value.readUIntBE(0, value.length)` (1–6 bytes)
within the range; a plain array of accepted values is not callable, so the
call raises a TypeError; the custom `GPIs` validator checks the length. -/
def runValidator (va : PropValidator) (v : List Nat) : Except String Bool :=
  match va with
  | .range lo hi =>
    if 1 ≤ v.length ∧ v.length ≤ 6 then .ok (decide (lo ≤ beNat v ∧ beNat v ≤ hi))
    else .error "RangeError"
  | .values _ => .error "TypeError: validator is not a function"
  | .bufferLength n => .ok (decide (v.length = n))

/-- The `Property` constructor (`property.ts`): the four-NUL name AND
four-NUL *string* value sentinel collapses to the empty property; a truthy
name must be in the catalogue; a truthy value runs through the type's value
initialiser and the optional validator.  Falsy values (such as the number 0)
are stored unchanged. -/
def Property.construct (name₀ : Option String) (value₀ : Option JSValue) :
    Except String ACPProperty :=
  let sentinel := name₀ = some nulPropName ∧ value₀ = some (.str nulPropName)
  let name? := if sentinel then none else name₀
  let value? := if sentinel then none else value₀
  if truthyStr name? ∧ ¬ getSupportedPropertyNames.contains (name?.getD "") then
    .error ("Invalid property name passed to Property constructor: " ++ name?.getD "")
  else if truthyVal value? then
    match getPropertyInfoType name? with
    | none => .error "Missing handler for undefined property type"
    | some t =>
      if ¬ valueInitialiserTypes.contains t then
        .error ("Missing handler for " ++ t ++ " property type")
      else
        match valueInitialiser t (value?.getD (.num 0)) with
        | .error e => .error e
        | .ok v =>
          match getPropertyInfoValidator name? with
          | none => .ok ⟨name?, some (.buf v)⟩
          | some va =>
            match runValidator va v with
            | .error e => .error e
            | .ok true => .ok ⟨name?, some (.buf v)⟩
            | .ok false =>
              .error ("Invalid value passed to validator for property " ++ name?.getD "")
  else .ok ⟨name?, value?⟩

/-- `Property.packHeader`: the 4-byte name (UTF-8; wire names are ASCII or
NUL) written into a zeroed buffer, then flags and size as big-endian u32. -/
def propPackHeader (name : String) (flags size : Nat) : List Nat :=
  let nb := (name.data.map Char.toNat).take 4
  (nb ++ List.replicate (4 - nb.length) 0) ++ be32u flags ++ be32u size

/-- `Property.unpackHeader` (callers pass exactly 12 bytes): the 4-byte name
decoded as text, big-endian flags and size. -/
def propUnpackHeader (b : List Nat) : String × Nat × Nat :=
  (String.mk ((b.take 4).map Char.ofNat), readU32 b 4, readU32 b 8)

/-- `Property.composeRawElement(flags, property)`: an undefined name becomes
the four-NUL sentinel; a Buffer value is emitted as is, a number as a 4-byte
big-endian u32, a truthy string as its bytes, and anything falsy as the
four-NUL placeholder value of size 4. -/
def composeRawElement (flags : Nat) (p : ACPProperty) : Except String (List Nat) :=
  let name := match p.name with
    | some s => if s ≠ "" then s else nulPropName
    | none => nulPropName
  match p.value with
  | some (.buf b) => .ok (propPackHeader name flags b.length ++ b)
  | some (.num n) =>
    if 0 ≤ n ∧ n < 4294967296 then
      .ok (propPackHeader name flags 4 ++ be32u n.toNat)
    else .error "RangeError"
  | some (.str s) =>
    if s ≠ "" then
      .ok (propPackHeader name flags (latin1Bytes s).length ++ latin1Bytes s)
    else .ok (propPackHeader name flags 4 ++ [0, 0, 0, 0])
  | none => .ok (propPackHeader name flags 4 ++ [0, 0, 0, 0])

/-- The request payload built by `Client#getProperties`: one element composed
per requested tag via `new Property(name)` (no value). -/
def getPropertiesPayload (names : List String) : Except String (List Nat) :=
  names.foldlM
    (fun payload name =>
      match Property.construct (some name) none with
      | .error e => .error e
      | .ok prop =>
        match composeRawElement 0 prop with
        | .error e => .error e
        | .ok el => .ok (payload ++ el)) []

def hexChar (n : Nat) : Char := if n < 10 then Char.ofNat (48 + n) else Char.ofNat (87 + n)

/-- `buffer.toString('hex')`. -/
def hexString (v : List Nat) : String :=
  String.mk (v.foldr (fun b acc => hexChar (b / 16 % 16) :: hexChar (b % 16) :: acc) [])

/-- The reply loop of `Client#getProperties` (client.ts): read a 12-byte
element header, read `size` value bytes, fail on `flags & 1` with the tag and
the value's big-endian i32 error code, construct a `Property` from the name
and the received Buffer, stop when the constructed property is the empty
sentinel, otherwise accumulate in arrival order.  `fuel` bounds iterations;
`none` means the loop was left waiting for more reply bytes. -/
def getPropertiesLoop : Nat → List Nat → List ACPProperty →
    Option (Except String (List ACPProperty))
  | 0, _, _ => none
  | fuel + 1, stream, acc =>
    if stream.length < 12 then none
    else
      match propUnpackHeader (stream.take 12) with
      | (name, flags, size) =>
        if stream.length < 12 + size then none
        else
          let value := (stream.drop 12).take size
          if flags % 2 = 1 then
            some (.error ("Error requesting value for property \"" ++ name ++ "\": " ++
              toString (readI32 value 0) ++ " " ++ hexString value))
          else
            match Property.construct (some name) (some (.buf value)) with
            | .error e => some (.error e)
            | .ok prop =>
              if prop.name = none ∧ prop.value = none then some (.ok acc)
              else getPropertiesLoop fuel (stream.drop (12 + size)) (acc ++ [prop])

/-- `Client#getProperties` reply processing: a non-zero reply `error_code`
raises a protocol error carrying the code, otherwise the element loop runs. -/
def getPropertiesReply (reply_error_code : Int) (stream : List Nat) (fuel : Nat) :
    Option (Except String (List ACPProperty)) :=
  if reply_error_code ≠ 0 then
    some (.error ("Error " ++ toString reply_error_code))
  else getPropertiesLoop fuel stream []

/-- **C3** (what the code does): a non-zero reply `error_code` does raise the
protocol error with the code, and a received element with bit 0 of its flags
set does raise the per-property error with the tag and the 4-byte big-endian
error code — but the loop never "ends at the four-NUL terminator": the
constructor's sentinel test compares the received Buffer against a string and
always fails, so the terminator element makes the constructor throw `Invalid
property name` instead of ending the loop and returning the list. -/
theorem getPropertiesReply_spec :
    getPropertiesReply 3 [] 1 = some (.error "Error 3") ∧
    getPropertiesReply 0
        [115, 121, 65, 80, 0, 0, 0, 1, 0, 0, 0, 4, 0, 0, 0, 5] 2 =
      some (.error "Error requesting value for property \"syAP\": 5 00000005") ∧
    getPropertiesReply 0
        [0, 0, 0, 0, 0, 0, 0, 0, 0, 0, 0, 4, 0, 0, 0, 0] 2 =
      some (.error
        ("Invalid property name passed to Property constructor: " ++ nulPropName)) := by
  refine ⟨rfl, ?_, ?_⟩ <;> decide

/-- **C7** counterexample: the outbound `GetProp` body for the single tag
`"syAP"` is not the claimed 12 bytes `"syAP"` + eight-zero header. -/
theorem getPropertiesPayload_syAP_ne :
    getPropertiesPayload ["syAP"] ≠
      .ok ([115, 121, 65, 80] ++ List.replicate 8 0) := by
  decide

/-- **C7** (amended): the outbound body for `getProperties(["syAP"])` is the
16 bytes `"syAP"`, flags 0, size **4**, followed by four NUL value bytes —
`composeRawElement` substitutes a four-NUL placeholder value for a property
without a value. -/
theorem getPropertiesPayload_syAP :
    getPropertiesPayload ["syAP"] =
      .ok [115, 121, 65, 80, 0, 0, 0, 0, 0, 0, 0, 4, 0, 0, 0, 0] := by
  decide

set_option maxRecDepth 8000 in
/-- **C10**: constructing a `Property` from any catalogue name and the number
0 skips the value initialiser and validator (0 is falsy), stores the number 0
itself, and `composeRawElement` still encodes the element as the 12-byte
header with size 4 followed by the big-endian 32-bit integer 0. -/
theorem property_num_zero (name : String) (h : name ∈ getSupportedPropertyNames) :
    Property.construct (some name) (some (.num 0)) = .ok ⟨some name, some (.num 0)⟩ ∧
    composeRawElement 0 ⟨some name, some (.num 0)⟩ =
      .ok (propPackHeader name 0 4 ++ [0, 0, 0, 0]) := by
  have hne : name ≠ "" := by
    have hall : ∀ x ∈ getSupportedPropertyNames, ¬ x = "" := by decide
    exact hall name h
  constructor
  · have hsent : ¬ (some name = some nulPropName ∧
        (some (JSValue.num 0) : Option JSValue) = some (.str nulPropName)) := by
      rintro ⟨-, hv⟩
      cases hv
    have hcont : getSupportedPropertyNames.contains name = true := by
      exact List.elem_eq_true_of_mem h
    simp [Property.construct, hsent, truthyStr, truthyVal, hne, hcont, h]
  · simp [composeRawElement, hne, be32u]

/-- Witness for C10 at the reboot property: `new Property('acRB', 0)`. -/
theorem property_num_zero_witness :
    Property.construct (some "acRB") (some (.num 0)) =
      .ok ⟨some "acRB", some (.num 0)⟩ ∧
    composeRawElement 0 ⟨some "acRB", some (.num 0)⟩ =
      .ok (propPackHeader "acRB" 0 4 ++ [0, 0, 0, 0]) :=
  property_num_zero "acRB" (by decide)

end NodeACP
